import Mathlib

/-!
Verification development for the ketocounter food-logging pipeline.

The repository is a Next.js application.  The parts relevant to the claims
are the API route handlers (analyze-text, analyze-photo in a single-model
and a multi-model fallback variant, and audio transcription), the
client-side voice pipeline in page.tsx, and the image normalizer in
camera-capture.tsx (isHeicFile, processImage, processBlob).

Conventions of the shallow embedding:

* JavaScript numbers are modelled as rationals.  The handlers only do
  exact comparisons, max, rounding, additions and decrements of 0.1; the
  floating-point rounding of the originals never changes which branch is
  taken in any property proved here.
* Untrusted JSON values coming back from the model are a JValue inductive.
  Number("...") coercion on a string is modelled for plain decimal
  numerals; other strings coerce to NaN as in JavaScript.  NaN itself is
  represented by Option (none), since a rational NaN does not exist.
  Single-element arrays, which JavaScript coerces through their string
  form, are conservatively mapped to NaN here; no claim exercises them.
* Network I/O is modelled by oracles: a handler is given the outcome of
  each provider call it could make and returns its HTTP response together
  with the number of provider calls it performed.  The markdown-fence
  stripping plus greedy-regex JSON extraction of the handlers is modelled
  abstractly as the Except-valued parse outcome carried by the oracle,
  since every claim starts from the parsed object or from the HTTP status.
-/

/-- Model of a JavaScript value as found in parsed JSON, plus undefined. -/
inductive JValue where
  | jundefined : JValue
  | jnull : JValue
  | jbool : Bool → JValue
  | jnum : ℚ → JValue
  | jstr : String → JValue
  | jarr : List JValue → JValue
  | jobj : List (String × JValue) → JValue

/-- First-match lookup in an object field list, undefined when absent. -/
def lookupField : List (String × JValue) → String → JValue
  | [], _ => .jundefined
  | (k', x) :: rest, k => if k' = k then x else lookupField rest k

/-- Property access v[k]: fields of objects, undefined on everything else
(named properties of non-objects are not used by the handlers). -/
def jget (v : JValue) (k : String) : JValue :=
  match v with
  | .jobj fs => lookupField fs k
  | _ => .jundefined

/-- JavaScript truthiness. -/
def truthy : JValue → Bool
  | .jundefined => false
  | .jnull => false
  | .jbool b => b
  | .jnum q => decide (q ≠ 0)
  | .jstr s => decide (s ≠ "")
  | .jarr _ => true
  | .jobj _ => true

/-- JavaScript a || b on values: a when truthy, else b. -/
def jsOrV (a b : JValue) : JValue := if truthy a then a else b

/-- JavaScript s || d for a string-or-null left operand (null and the
empty string are falsy). -/
def jsOrS (a : Option String) (d : String) : String :=
  match a with
  | none => d
  | some s => if s = "" then d else s

/-- Whitespace test for the trim model. -/
def isWsChar (c : Char) : Bool :=
  c = ' ' || c = '\t' || c = '\n' || c = '\r'

/-- Executable model of String.prototype.trim: strip leading and
trailing whitespace (the core library trim is not kernel-reducible, so
the embedding uses this list-based equivalent). -/
def jsTrim (s : String) : String :=
  String.mk (((s.toList.dropWhile isWsChar).reverse.dropWhile isWsChar).reverse)

/-- True when an optional string is JavaScript-falsy (absent or empty);
used for the apiKey = env || header resolution in every route. -/
def keyMissing (env hdr : Option String) : Bool :=
  decide (env.getD "" = "") && decide (hdr.getD "" = "")

/-- Numeric value of a digit list (most significant first). -/
def digitsVal (cs : List Char) : ℕ :=
  cs.foldl (fun a c => a * 10 + (c.toNat - 48)) 0

/-- Number(s) for a string: trimmed, empty is 0, otherwise an optionally
signed decimal numeral; everything else is NaN (none).  JavaScript
additionally accepts hex and exponent forms, which no handler input in
the claims uses. -/
def parseDecString (s : String) : Option ℚ :=
  let t := s.trim
  if t = "" then some 0
  else
    let cs := t.toList
    let signVal : ℚ := match cs with
      | '-' :: _ => -1
      | _ => 1
    let body : List Char := match cs with
      | '-' :: rest => rest
      | '+' :: rest => rest
      | other => other
    let intPart := body.takeWhile (fun c => c ≠ '.')
    let dotPart := body.dropWhile (fun c => c ≠ '.')
    match dotPart with
    | [] =>
      if body ≠ [] && body.all Char.isDigit then
        some (signVal * (digitsVal body : ℚ))
      else none
    | _ :: frac =>
      if (intPart ≠ [] || frac ≠ []) && intPart.all Char.isDigit
          && frac.all Char.isDigit then
        some (signVal * ((digitsVal intPart : ℚ)
          + (digitsVal frac : ℚ) / (10 : ℚ) ^ frac.length))
      else none

/-- Number(v) coercion; none is NaN. -/
def jsNumber? : JValue → Option ℚ
  | .jundefined => none
  | .jnull => some 0
  | .jbool true => some 1
  | .jbool false => some 0
  | .jnum q => some q
  | .jstr s => parseDecString s
  | .jarr [] => some 0
  | .jarr _ => none
  | .jobj _ => none

/-- Number(v) || d: the coercion with NaN and 0 replaced by the default,
exactly the idiom used for every numeric field of a food item. -/
def jsNumOr (v : JValue) (d : ℚ) : ℚ :=
  match jsNumber? v with
  | none => d
  | some q => if q = 0 then d else q

mutual

/-- String(v) conversion.  Number formatting is abstracted to the
canonical rational representation; arrays join their elements with
commas as in JavaScript. -/
def jsString : JValue → String
  | .jundefined => "undefined"
  | .jnull => "null"
  | .jbool true => "true"
  | .jbool false => "false"
  | .jnum q => toString q
  | .jstr s => s
  | .jarr xs => jsStringList xs
  | .jobj _ => "[object Object]"

/-- Comma-joined element list for String() on an array. -/
def jsStringList : List JValue → String
  | [] => ""
  | [x] => jsString x
  | x :: rest => jsString x ++ "," ++ jsStringList rest

end

/-- JavaScript + as used in the totals reduces: numeric addition on two
numbers, string concatenation when a string is involved, NaN (modelled
by undefined) otherwise. -/
def jsAdd (a b : JValue) : JValue :=
  match a, b with
  | .jnum x, .jnum y => .jnum (x + y)
  | .jstr x, y => .jstr (x ++ jsString y)
  | x, .jstr y => .jstr (jsString x ++ y)
  | _, _ => .jundefined

/-- The .length read used by the foods checks: array or string length,
undefined otherwise. -/
def jsLength : JValue → JValue
  | .jarr xs => .jnum xs.length
  | .jstr s => .jnum s.length
  | _ => .jundefined

/-- The condition v.length === 0 (strict equality, so undefined is not 0). -/
def jsLengthEqZero (v : JValue) : Bool :=
  match jsLength v with
  | .jnum q => decide (q = 0)
  | _ => false

/-- True when v is an array (Array.isArray). -/
def isJArr : JValue → Bool
  | .jarr _ => true
  | _ => false

/-! ## Nutrition normalizers

Two per-item normalization maps occur in the sources.

The basic one appears verbatim in the part_002 analyze-text handler
(lines 117-127), in app/api/analyze-photo/route.ts (lines 115-125) and in
the part_004 photo handler (lines 126-136):

  name: f.name || 'Alimento', calories: Number(f.calories) || 0, ...,
  netCarbs: Math.max(0, (Number(f.carbs) || 0) - (Number(f.fiber) || 0)),
  servingSize: Number(f.servingSize) || 100, unit: f.unit || 'g'

The vision-fallback one (part_002 lines 249-253) additionally clamps the
plain numeric fields with Math.max(0, _), stringifies name and unit, and
floors servingSize at 1 -- but still computes netCarbs from the
unclamped coerced carbs and fiber. -/

/-- Basic per-item normalizer shared by the part_002 text handler and the
single-model photo handlers. -/
def normalizeFoodBasic (f : JValue) : JValue :=
  .jobj [
    ("name", jsOrV (jget f "name") (.jstr "Alimento")),
    ("calories", .jnum (jsNumOr (jget f "calories") 0)),
    ("carbs", .jnum (jsNumOr (jget f "carbs") 0)),
    ("protein", .jnum (jsNumOr (jget f "protein") 0)),
    ("fat", .jnum (jsNumOr (jget f "fat") 0)),
    ("fiber", .jnum (jsNumOr (jget f "fiber") 0)),
    ("netCarbs", .jnum (max 0 (jsNumOr (jget f "carbs") 0 - jsNumOr (jget f "fiber") 0))),
    ("servingSize", .jnum (jsNumOr (jget f "servingSize") 100)),
    ("unit", jsOrV (jget f "unit") (.jstr "g"))]

/-- Per-item normalizer of the part_002 vision fallback handler. -/
def normalizeFoodVisionFB (f : JValue) : JValue :=
  .jobj [
    ("name", .jstr (jsString (jsOrV (jget f "name") (.jstr "Alimento")))),
    ("calories", .jnum (max 0 (jsNumOr (jget f "calories") 0))),
    ("carbs", .jnum (max 0 (jsNumOr (jget f "carbs") 0))),
    ("protein", .jnum (max 0 (jsNumOr (jget f "protein") 0))),
    ("fat", .jnum (max 0 (jsNumOr (jget f "fat") 0))),
    ("fiber", .jnum (max 0 (jsNumOr (jget f "fiber") 0))),
    ("netCarbs", .jnum (max 0 (jsNumOr (jget f "carbs") 0 - jsNumOr (jget f "fiber") 0))),
    ("servingSize", .jnum (max 1 (jsNumOr (jget f "servingSize") 100))),
    ("unit", .jstr (jsString (jsOrV (jget f "unit") (.jstr "g"))))]

/-- Zero accumulator of every totals reduce. -/
def zeroTotals : JValue :=
  .jobj [("calories", .jnum 0), ("carbs", .jnum 0), ("protein", .jnum 0),
    ("fat", .jnum 0), ("fiber", .jnum 0), ("netCarbs", .jnum 0)]

/-- One reduce step of the totals computation over already-normalized
items: acc.calories + f.calories and so on (part_002 text lines 131-138,
photo handlers). -/
def addTotalsStep (acc f : JValue) : JValue :=
  .jobj [
    ("calories", jsAdd (jget acc "calories") (jget f "calories")),
    ("carbs", jsAdd (jget acc "carbs") (jget f "carbs")),
    ("protein", jsAdd (jget acc "protein") (jget f "protein")),
    ("fat", jsAdd (jget acc "fat") (jget f "fat")),
    ("fiber", jsAdd (jget acc "fiber") (jget f "fiber")),
    ("netCarbs", jsAdd (jget acc "netCarbs") (jget f "netCarbs"))]

/-- Totals reduce over a foods list (used after normalization). -/
def sumTotalsReduce (foods : List JValue) : JValue :=
  foods.foldl addTotalsStep zeroTotals

/-- One reduce step of the plain analyze-text route.ts totals (lines
86-93), which guards every raw field with || 0 because the items were
never normalized there. -/
def addTotalsStepPlain (acc f : JValue) : JValue :=
  .jobj [
    ("calories", jsAdd (jget acc "calories") (jsOrV (jget f "calories") (.jnum 0))),
    ("carbs", jsAdd (jget acc "carbs") (jsOrV (jget f "carbs") (.jnum 0))),
    ("protein", jsAdd (jget acc "protein") (jsOrV (jget f "protein") (.jnum 0))),
    ("fat", jsAdd (jget acc "fat") (jsOrV (jget f "fat") (.jnum 0))),
    ("fiber", jsAdd (jget acc "fiber") (jsOrV (jget f "fiber") (.jnum 0))),
    ("netCarbs", jsAdd (jget acc "netCarbs") (jsOrV (jget f "netCarbs") (.jnum 0)))]

/-- Totals reduce of the plain analyze-text route. -/
def sumTotalsReducePlain (foods : List JValue) : JValue :=
  foods.foldl addTotalsStepPlain zeroTotals

/-! ## Route handler embeddings

Each handler is a pure function of the request fields, the credential
sources (environment variable and X-Groq-API-Key header) and a network
oracle that supplies the outcome of each provider call.  It returns the
HTTP response it would produce together with the number of provider
calls made, so that statements about "zero network calls" and about the
fallback budget are direct. -/

/-- Response of a route handler: NextResponse.json payload plus status.
The success payloads surface the foods list, the totalNutrition object
and, for the transcription route, the transcription string. -/
structure ApiResp where
  success : Bool
  error : Option String
  status : ℕ
  foods : List JValue
  totalNutrition : JValue
  transcription : Option String

/-- Failure response with HTTP 200 (the handlers' default). -/
def failResp (msg : String) : ApiResp := ⟨false, some msg, 200, [], .jundefined, none⟩

/-- Failure response with an explicit HTTP status. -/
def failRespStatus (msg : String) (st : ℕ) : ApiResp :=
  ⟨false, some msg, st, [], .jundefined, none⟩

/-- Success response carrying foods and totals. -/
def okFoods (foods : List JValue) (tot : JValue) : ApiResp :=
  ⟨true, none, 200, foods, tot, none⟩

/-- Success response of the transcription route. -/
def okTranscription (t : String) : ApiResp :=
  ⟨true, none, 200, [], .jundefined, some t⟩

/-- Outcome of one chat-completion call, as observed by a handler: a
thrown error (network failure, or the Request timeout rethrow of
fetchWithTimeout), a non-2xx HTTP status, or a 2xx response whose
content either fails markdown-stripping plus JSON.parse or yields a
parsed value. -/
inductive ChatOutcome where
  | thrown : String → ChatOutcome
  | httpErr : ℕ → ChatOutcome
  | ok : Except Unit JValue → ChatOutcome

/-- Kernel-reducible model of String.prototype.startsWith. -/
def strStartsWith (s p : String) : Bool := List.isPrefixOf p.toList s.toList

/-- Image URL actually transmitted by both photo handlers: the payload
itself when it already is a data URI, otherwise wrapped as JPEG base64. -/
def visionRequestUrl (img : String) : String :=
  if strStartsWith img "data:" then img else "data:image/jpeg;base64," ++ img

/-- Math.round, which for the arguments in scope is floor of x + 1/2. -/
def jsRound (x : ℚ) : ℤ := ⌊x + 1 / 2⌋

/-- Math.round(payload.length / 1024), the size gate quantity of the
photo handlers. -/
def imageSizeKB (img : String) : ℤ := jsRound ((img.length : ℚ) / 1024)

/-- Handler of app/api/analyze-text/route.ts (the variant without
normalization).  The request body supplies description and text as
strings when present; desc models body.description || body.text || ''. -/
def analyzeTextPlain (env hdr : Option String) (description text : Option String)
    (net : ChatOutcome) : ApiResp × ℕ :=
  let desc := jsOrS description (jsOrS text "")
  if keyMissing env hdr then
    (failResp "API key no configurada. Ve a Configuración para agregar tu API key de Groq.", 0)
  else if desc = "" || jsTrim desc = "" then
    (failResp "Escribe algo para analizar", 0)
  else
    match net with
    | .thrown m => (failResp (jsOrS (some m) "Error"), 1)
    | .httpErr _ => (failResp "Error de API. Verifica tu API key de Groq.", 1)
    | .ok (.error ()) => (failResp "No pude procesar. Intenta: \"huevo frito\"", 1)
    | .ok (.ok result) =>
      let foodsV := jget result "foods"
      if ¬ truthy foodsV || ¬ isJArr foodsV || jsLengthEqZero foodsV then
        (failResp "No identifiqué alimentos. Intenta: \"2 huevos fritos\"", 1)
      else
        match foodsV with
        | .jarr xs =>
          let tot := if truthy (jget result "totalNutrition") then
              jget result "totalNutrition"
            else sumTotalsReducePlain xs
          (okFoods xs tot, 1)
        | _ => (failResp "No identifiqué alimentos. Intenta: \"2 huevos fritos\"", 1)

/-- Handler of the part_002 analyze-text variant (timeout wrapper,
status-mapped errors, per-item normalization). -/
def analyzeTextV2 (env hdr : Option String) (description text : Option String)
    (net : ChatOutcome) : ApiResp × ℕ :=
  let desc := jsOrS description (jsOrS text "")
  if keyMissing env hdr then
    (failResp "API key no configurada. Ve a Configuración para agregar tu API key de Groq.", 0)
  else if desc = "" || jsTrim desc = "" then
    (failResp "Escribe algo para analizar", 0)
  else
    match net with
    | .thrown m =>
      if m = "Request timeout" then
        (failResp "Tiempo de espera agotado. Intenta de nuevo.", 1)
      else (failResp "Error inesperado. Intenta de nuevo.", 1)
    | .httpErr s =>
      if s = 401 || s = 403 then
        (failResp "API Key inválida. Verifica en console.groq.com", 1)
      else if s = 429 then
        (failResp "Límite de API alcanzado. Espera un momento.", 1)
      else (failResp "Error de API. Intenta de nuevo.", 1)
    | .ok (.error ()) =>
      (failResp "No pude procesar. Intenta: \"huevo frito con tocino\"", 1)
    | .ok (.ok result) =>
      let foodsV := jget result "foods"
      if ¬ truthy foodsV || ¬ isJArr foodsV || jsLengthEqZero foodsV then
        (failResp "No identifiqué alimentos. Ejemplo: \"2 huevos fritos\"", 1)
      else
        match foodsV with
        | .jarr xs =>
          let nfs := xs.map normalizeFoodBasic
          let tot := if truthy (jget result "totalNutrition") then
              jget result "totalNutrition"
            else sumTotalsReduce nfs
          (okFoods nfs tot, 1)
        | _ => (failResp "No identifiqué alimentos. Ejemplo: \"2 huevos fritos\"", 1)

/-- Post-parse handling of the single-model photo route
(app/api/analyze-photo/route.ts lines 104-146).  A foods value that is
truthy with nonzero length but not an array makes the .map call throw;
the surrounding catch turns that into the same parse-failure response. -/
def handleParsedPhotoSingle (result : JValue) : ApiResp :=
  let foodsV := jget result "foods"
  if ¬ truthy foodsV || jsLengthEqZero foodsV then
    failResp "No se detectaron alimentos claros. Intenta con texto o mejor iluminación."
  else
    match foodsV with
    | .jarr xs =>
      let nfs := xs.map normalizeFoodBasic
      let tot := if truthy (jget result "totalNutrition") then
          jget result "totalNutrition"
        else sumTotalsReduce nfs
      okFoods nfs tot
    | _ => failResp "No pude analizar la imagen. Intenta con texto."

/-- Handler of app/api/analyze-photo/route.ts (single vision model,
3000 KB gate, 45 s timeout). -/
def analyzePhotoSingle (env hdr : Option String) (imageBase64 : Option String)
    (net : String → ChatOutcome) : ApiResp × ℕ :=
  if (imageBase64.getD "") = "" then
    (failRespStatus "Se requiere una imagen" 400, 0)
  else if keyMissing env hdr then
    (failResp "API key no configurada. Ve a Configuración para agregar tu API key de Groq.", 0)
  else
    let img := imageBase64.getD ""
    if imageSizeKB img > 3000 then
      (failRespStatus "Imagen muy grande. La app ya la comprime automáticamente." 400, 0)
    else
      match net (visionRequestUrl img) with
      | .thrown m =>
        if m = "Request timeout" then
          (failResp "Tiempo de espera agotado. Intenta de nuevo.", 1)
        else (failResp ("Error al procesar: " ++ jsOrS (some m) "desconocido"), 1)
      | .httpErr s =>
        if s = 401 || s = 403 then
          (failResp "API Key inválida. Verifica en console.groq.com", 1)
        else if s = 429 then
          (failResp "Límite de API alcanzado. Espera un momento.", 1)
        else (failResp "Error al analizar. Intenta con texto.", 1)
      | .ok (.error ()) =>
        (failResp "No pude analizar la imagen. Intenta con texto.", 1)
      | .ok (.ok result) => (handleParsedPhotoSingle result, 1)

/-! ### Vision fallback loop (part_002 second handler) -/

/-- Candidate vision models of the fallback handler, in order. -/
def VISION_MODELS : List String :=
  ["llama-3.2-11b-vision-preview", "llama-3.2-90b-vision-preview"]

/-- The ordered (model, attempt) pairs the fallback loop iterates:
for (model of VISION_MODELS) for (attempt = 1; attempt <= 2; ...). -/
def visionPairs : List (String × ℕ) :=
  VISION_MODELS.foldr (fun m acc => (m, 1) :: (m, 2) :: acc) []

/-- Post-parse handling of one fallback attempt: inl is an immediate
return (empty-foods soft failure or success), inr is the continue path
taken when result.foods.map throws, carrying the message stored into
lastError by the catch. -/
def handleParsedVisionFB (result : JValue) : ApiResp ⊕ String :=
  let foodsV := jget result "foods"
  if ¬ truthy foodsV || jsLengthEqZero foodsV then
    .inl (failResp "No detecté alimentos claros. Intenta con mejor iluminación o usa texto.")
  else
    match foodsV with
    | .jarr xs =>
      let nfs := xs.map normalizeFoodVisionFB
      let tot := if truthy (jget result "totalNutrition") then
          jget result "totalNutrition"
        else sumTotalsReduce nfs
      .inl (okFoods nfs tot)
    | _ => .inr "La IA respondió incorrectamente. Intenta de nuevo."

/-- One step of the fallback loop body on the outcome of the current
(model, attempt) pair: inl returns, inr continues with a lastError. -/
def visionStep (o : ChatOutcome) : ApiResp ⊕ String :=
  match o with
  | .thrown _ => .inr "La IA respondió incorrectamente. Intenta de nuevo."
  | .httpErr s =>
    if s = 401 || s = 403 then
      .inl (failResp "API Key inválida. Verifica en console.groq.com")
    else if s = 429 then .inr "Límite de API alcanzado. Espera un momento."
    else if s = 400 then .inr "Imagen no procesada. Intenta con texto."
    else .inr ("Error " ++ toString s)
  | .ok (.error ()) => .inr "La IA respondió incorrectamente. Intenta de nuevo."
  | .ok (.ok result) => handleParsedVisionFB result

/-- The fallback loop over the outcomes of the successive (model,
attempt) pairs, threading lastError; returns the response and the number
of pairs consumed (provider calls made). -/
def visionTryList : List ChatOutcome → Option String → ApiResp × ℕ
  | [], lastError =>
    (failResp (lastError.getD "No pude analizar. Intenta con texto."), 0)
  | o :: rest, lastError =>
    match visionStep o with
    | .inl resp => (resp, 1)
    | .inr msg =>
      let r := visionTryList rest (some msg)
      (r.1, r.2 + 1)

/-- Handler of the part_002 vision fallback route (two models, two
attempts each, 5 KB and 4000 KB gates). -/
def analyzePhotoFallback (env hdr : Option String) (imageBase64 : Option String)
    (net : String → String × ℕ → ChatOutcome) : ApiResp × ℕ :=
  if (imageBase64.getD "") = "" then
    (failRespStatus "Se requiere una imagen" 400, 0)
  else if keyMissing env hdr then
    (failResp "API key no configurada. Ve a Configuración.", 0)
  else
    let img := imageBase64.getD ""
    if imageSizeKB img < 5 then
      (failRespStatus "Imagen muy pequeña o corrupta." 400, 0)
    else if imageSizeKB img > 4000 then
      (failRespStatus "Imagen muy grande." 400, 0)
    else
      visionTryList (visionPairs.map (net (visionRequestUrl img))) none

/-! ### Transcription route (part_004 third handler, the trim variant) -/

/-- Outcome of the transcription provider call: thrown, non-2xx status,
or a 2xx JSON body whose text field is the given optional string. -/
inductive TransOutcome where
  | thrown : String → TransOutcome
  | httpErr : ℕ → TransOutcome
  | ok : Option String → TransOutcome

/-- Handler of the analyze-voice transcription route (part_004 lines
261-336): checks audio, credential, calls the provider, then rejects a
blank transcription (data.text?.trim() falsy) with a dedicated message. -/
def transcribeRoute (env hdr : Option String) (audioBase64 : Option String)
    (net : TransOutcome) : ApiResp × ℕ :=
  if (audioBase64.getD "") = "" then
    (failRespStatus "Se requiere audio" 400, 0)
  else if keyMissing env hdr then
    (failResp "API key no configurada.", 0)
  else
    match net with
    | .thrown m =>
      if m = "Request timeout" then
        (failResp "Tiempo de espera agotado. Intenta de nuevo.", 1)
      else (failResp (jsOrS (some m) "Error al transcribir el audio"), 1)
    | .httpErr s =>
      if s = 401 || s = 403 then
        (failResp "API Key inválida. Verifica en console.groq.com", 1)
      else if s = 429 then
        (failResp "Límite de API alcanzado. Espera un momento.", 1)
      else (failResp "Error al transcribir audio.", 1)
    | .ok text =>
      let transcription := (text.map jsTrim).getD ""
      if transcription = "" then
        (failResp "No pude entender el audio. Habla más claro o usa la opción de escribir.", 1)
      else (okTranscription transcription, 1)

/-! ### Client-side voice pipeline (page.tsx handleVoiceTranscript) -/

/-- Observable outcome of the client voice handler. -/
inductive ClientOutcome where
  | setupShown : ClientOutcome
  | alertShown : String → ClientOutcome
  | resultShown : List JValue → JValue → ClientOutcome

/-- Client map applied to returned foods before display:
netCarbs recomputed as max (0, (carbs or 0) - (fiber or 0)) on top of
the other fields, which are spread unchanged. -/
def clientFixNetCarbs (f : JValue) : JValue :=
  match f with
  | .jobj fs =>
    .jobj (fs ++ [("netCarbs",
      .jnum (max 0 (jsNumOr (jget f "carbs") 0 - jsNumOr (jget f "fiber") 0)))])
  | other => other

/-- handleVoiceTranscript of page.tsx: requires a stored api key, posts
the audio to the transcription route, and only when that result is a
success with a truthy transcription posts the transcript to
analyze-text.  Returns the UI outcome and the number of analyze-text
calls made. -/
def handleVoiceTranscript (apiKey : Option String)
    (transcribeResult : ApiResp) (analyze : String → ApiResp) : ClientOutcome × ℕ :=
  if (apiKey.getD "") = "" then (ClientOutcome.setupShown, 0)
  else if transcribeResult.success
      && decide ((transcribeResult.transcription.getD "") ≠ "") then
    let analyzeResult := analyze ((transcribeResult.transcription.getD ""))
    if analyzeResult.success && decide (analyzeResult.foods.length > 0) then
      (ClientOutcome.resultShown (analyzeResult.foods.map clientFixNetCarbs)
        analyzeResult.totalNutrition, 1)
    else (ClientOutcome.alertShown (jsOrS analyzeResult.error "No se pudo analizar."), 1)
  else (ClientOutcome.alertShown (jsOrS transcribeResult.error "No se pudo transcribir."), 0)

/-! ## Image normalizer (camera-capture.tsx)

processBlob decodes a blob into pixel dimensions, scales, draws to a
canvas and re-encodes as JPEG under a quality loop.  Decoding and JPEG
encoding are browser services, modelled as oracles: decode gives the
pixel dimensions of a blob (none when img.onerror fires), enc gives the
length of the data URL the canvas produces at a given quality. -/

/-- A blob is identified abstractly; only identity matters here. -/
abbrev Blob := ℕ

/-- File metadata plus its content blob (camera-capture File values). -/
structure FileMeta where
  name : String
  type : String
  blob : Blob

/-- Kernel-reducible model of String.prototype.toLowerCase. -/
def strLower (s : String) : String := String.mk (s.toList.map Char.toLower)

/-- Kernel-reducible model of String.prototype.endsWith. -/
def strEndsWith (s p : String) : Bool := List.isSuffixOf p.toList s.toList

/-- isHeicFile of camera-capture.tsx lines 804-815: extension or declared
media type only. -/
def isHeicFile (f : FileMeta) : Bool :=
  let fileName := strLower f.name
  let mimeType := strLower f.type
  strEndsWith fileName ".heic" || strEndsWith fileName ".heif"
    || mimeType == "image/heic" || mimeType == "image/heif"
    || mimeType == "image/heic-sequence"
    || (mimeType == "" && (strEndsWith fileName ".heic" || strEndsWith fileName ".heif"))

/-- Scale factor computed by processBlob for a w by h image:
min(MAX_SIZE / width, MAX_SIZE / height, 1), further capped at 0.4 when
the pixel count exceeds 5000000. -/
def processScale (w h : ℕ) : ℚ :=
  let scale := min (min ((800 : ℚ) / (w : ℚ)) ((800 : ℚ) / (h : ℚ))) 1
  if w * h > 5000000 then min scale (2 / 5) else scale

/-- Size in KB that processBlob computes from a data URL length:
Math.round((len * 3) / 4 / 1024). -/
def dataUrlSizeKB (len : ℕ) : ℤ := jsRound ((len : ℚ) * 3 / 4 / 1024)

/-- The while loop of processBlob: while (sizeKB > 180 && quality > 0.15)
quality -= 0.1 and re-encode.  The fuel argument bounds recursion; from
the start quality 0.6 five decrements reach 0.1, below the 0.15 guard,
so fuel 6 never runs out (the main theorem shows the guard is false at
the returned state). -/
def qualityLoop (enc : ℚ → ℕ) : ℕ → ℚ → ℚ × ℤ
  | 0, q => (q, dataUrlSizeKB (enc q))
  | fuel + 1, q =>
    let s := dataUrlSizeKB (enc q)
    if s > 180 ∧ q > 3 / 20 then qualityLoop enc fuel (q - 1 / 10)
    else (q, s)

/-- Result handed to resolve by processBlob: final dimensions, JPEG
quality and encoded size (the data URL itself stays with the oracle). -/
structure ProcessedImage where
  width : ℤ
  height : ℤ
  quality : ℚ
  sizeKB : ℤ

/-- processBlob of camera-capture.tsx lines 864-929 given the decode
outcome for its blob and the canvas JPEG encoder: LOAD_FAILED when the
image does not load, INVALID_IMAGE on zero dimensions, CANVAS_ERROR
without a 2d context, otherwise the scaled and recompressed image. -/
def processBlobRun (decoded : Option (ℕ × ℕ)) (ctxOk : Bool)
    (enc : ℚ → ℕ) : Except String ProcessedImage :=
  match decoded with
  | none => .error "LOAD_FAILED"
  | some (w, h) =>
    if w = 0 ∨ h = 0 then .error "INVALID_IMAGE"
    else if ¬ ctxOk then .error "CANVAS_ERROR"
    else
      let scale := processScale w h
      let width := jsRound ((w : ℚ) * scale)
      let height := jsRound ((h : ℚ) * scale)
      let qs := qualityLoop enc 6 (6 / 10)
      .ok ⟨width, height, qs.1, qs.2⟩

/-- processImage of camera-capture.tsx lines 838-861: HEIC files go
through the conversion oracle, whose thrown failure is rejected as
HEIC_NOT_SUPPORTED; its produced blob (not the original file) is then
processed; non-HEIC files are processed directly. -/
def processImage (f : FileMeta) (convert : Except Unit Blob)
    (decode : Blob → Option (ℕ × ℕ)) (ctxOk : Bool)
    (enc : ℚ → ℕ) : Except String ProcessedImage :=
  if isHeicFile f then
    match convert with
    | .error () => .error "HEIC_NOT_SUPPORTED"
    | .ok b => processBlobRun (decode b) ctxOk enc
  else processBlobRun (decode f.blob) ctxOk enc

/-! ## Helper lemmas -/

/-- Coercing an already-coerced number with default 0 is the identity. -/
lemma jsNumOr_jnum_zero (q : ℚ) : jsNumOr (.jnum q) 0 = q := by
  by_cases h : q = 0 <;> simp [jsNumOr, jsNumber?, h]

/-- A coercion with nonzero default is nonzero. -/
lemma jsNumOr_ne_zero (v : JValue) (d : ℚ) (hd : d ≠ 0) : jsNumOr v d ≠ 0 := by
  unfold jsNumOr
  cases jsNumber? v with
  | none => exact hd
  | some q =>
    by_cases h : q = 0 <;> simp [h, hd]

/-- Coercing an already-coerced nonzero number keeps it. -/
lemma jsNumOr_jnum_of_ne (q d : ℚ) (h : q ≠ 0) : jsNumOr (.jnum q) d = q := by
  simp [jsNumOr, jsNumber?, h]

/-- Re-coercing a value padded with a nonempty-string default is stable. -/
lemma jsOrV_str_absorb (a : JValue) (s : String) (h : s ≠ "") :
    jsOrV (jsOrV a (.jstr s)) (.jstr s) = jsOrV a (.jstr s) := by
  unfold jsOrV
  by_cases ha : truthy a = true
  · rw [if_pos ha, if_pos ha]
  · rw [if_neg ha]
    have hs : truthy (JValue.jstr s) = true := by simpa [truthy] using h
    rw [if_pos hs]

/-- Field of the basic normalizer output: name. -/
lemma normBasic_name (f : JValue) :
    jget (normalizeFoodBasic f) "name" = jsOrV (jget f "name") (.jstr "Alimento") := rfl

/-- Field of the basic normalizer output: carbs. -/
lemma normBasic_carbs (f : JValue) :
    jget (normalizeFoodBasic f) "carbs" = .jnum (jsNumOr (jget f "carbs") 0) := rfl

/-- Field of the basic normalizer output: fiber. -/
lemma normBasic_fiber (f : JValue) :
    jget (normalizeFoodBasic f) "fiber" = .jnum (jsNumOr (jget f "fiber") 0) := rfl

/-- Field of the basic normalizer output: netCarbs, the recomputed value. -/
lemma normBasic_netCarbs (f : JValue) :
    jget (normalizeFoodBasic f) "netCarbs"
      = .jnum (max 0 (jsNumOr (jget f "carbs") 0 - jsNumOr (jget f "fiber") 0)) := rfl

/-- Field of the vision fallback normalizer output: carbs (clamped). -/
lemma normVisionFB_carbs (f : JValue) :
    jget (normalizeFoodVisionFB f) "carbs" = .jnum (max 0 (jsNumOr (jget f "carbs") 0)) := rfl

/-- Field of the vision fallback normalizer output: fiber (clamped). -/
lemma normVisionFB_fiber (f : JValue) :
    jget (normalizeFoodVisionFB f) "fiber" = .jnum (max 0 (jsNumOr (jget f "fiber") 0)) := rfl

/-- Field of the vision fallback normalizer output: netCarbs, computed
from the coerced but unclamped carbs and fiber. -/
lemma normVisionFB_netCarbs (f : JValue) :
    jget (normalizeFoodVisionFB f) "netCarbs"
      = .jnum (max 0 (jsNumOr (jget f "carbs") 0 - jsNumOr (jget f "fiber") 0)) := rfl

/-- String() of a string value is the string itself. -/
lemma jsString_jstr (s : String) : jsString (.jstr s) = s := by
  simp [jsString]

/-- Re-clamping a coerced clamped number is stable. -/
lemma clamp_roundtrip (x : ℚ) : max 0 (jsNumOr (.jnum (max 0 x)) 0) = max 0 x := by
  by_cases h : max 0 x = 0
  · rw [h, jsNumOr_jnum_zero]
    exact max_self 0
  · rw [jsNumOr_jnum_of_ne _ _ h, ← max_assoc, max_self]

/-- Re-flooring a coerced floored serving size is stable. -/
lemma serving_roundtrip (x : ℚ) : max 1 (jsNumOr (.jnum (max 1 x)) 100) = max 1 x := by
  have h : max 1 x ≠ 0 := by
    have h1 : (1 : ℚ) ≤ max 1 x := le_max_left 1 x
    intro h0
    rw [h0] at h1
    norm_num at h1
  rw [jsNumOr_jnum_of_ne _ _ h, ← max_assoc, max_self]

/-- Idempotence of the basic normalizer. -/
lemma normalizeFoodBasic_idem (f : JValue) :
    normalizeFoodBasic (normalizeFoodBasic f) = normalizeFoodBasic f := by
  have step : normalizeFoodBasic (normalizeFoodBasic f) = JValue.jobj [
      ("name", jsOrV (jsOrV (jget f "name") (.jstr "Alimento")) (.jstr "Alimento")),
      ("calories", .jnum (jsNumOr (.jnum (jsNumOr (jget f "calories") 0)) 0)),
      ("carbs", .jnum (jsNumOr (.jnum (jsNumOr (jget f "carbs") 0)) 0)),
      ("protein", .jnum (jsNumOr (.jnum (jsNumOr (jget f "protein") 0)) 0)),
      ("fat", .jnum (jsNumOr (.jnum (jsNumOr (jget f "fat") 0)) 0)),
      ("fiber", .jnum (jsNumOr (.jnum (jsNumOr (jget f "fiber") 0)) 0)),
      ("netCarbs", .jnum (max 0 (jsNumOr (.jnum (jsNumOr (jget f "carbs") 0)) 0
        - jsNumOr (.jnum (jsNumOr (jget f "fiber") 0)) 0))),
      ("servingSize", .jnum (jsNumOr (.jnum (jsNumOr (jget f "servingSize") 100)) 100)),
      ("unit", jsOrV (jsOrV (jget f "unit") (.jstr "g")) (.jstr "g"))] := rfl
  rw [step]
  rw [jsOrV_str_absorb (jget f "name") "Alimento" (by decide)]
  rw [jsOrV_str_absorb (jget f "unit") "g" (by decide)]
  simp only [jsNumOr_jnum_zero]
  rw [jsNumOr_jnum_of_ne (jsNumOr (jget f "servingSize") 100) 100
    (jsNumOr_ne_zero (jget f "servingSize") 100 (by norm_num))]
  rfl

/-- A nonempty string value absorbs any || default. -/
lemma jsOrV_jstr_of_ne (s : String) (b : JValue) (h : s ≠ "") :
    jsOrV (.jstr s) b = .jstr s := by
  unfold jsOrV
  rw [if_pos]
  simpa [truthy] using h

/-- Conditional idempotence of the vision fallback normalizer: stable on
re-application provided the coerced carbs and fiber are non-negative (so
that the clamped fields coincide with the values netCarbs was computed
from) and name and unit stringify to non-empty strings. -/
lemma normalizeFoodVisionFB_idem (f : JValue)
    (hc : 0 ≤ jsNumOr (jget f "carbs") 0)
    (hfb : 0 ≤ jsNumOr (jget f "fiber") 0)
    (hn : jsString (jsOrV (jget f "name") (.jstr "Alimento")) ≠ "")
    (hu : jsString (jsOrV (jget f "unit") (.jstr "g")) ≠ "") :
    normalizeFoodVisionFB (normalizeFoodVisionFB f) = normalizeFoodVisionFB f := by
  have step : normalizeFoodVisionFB (normalizeFoodVisionFB f) = JValue.jobj [
      ("name", .jstr (jsString (jsOrV
        (.jstr (jsString (jsOrV (jget f "name") (.jstr "Alimento")))) (.jstr "Alimento")))),
      ("calories", .jnum (max 0 (jsNumOr (.jnum (max 0 (jsNumOr (jget f "calories") 0))) 0))),
      ("carbs", .jnum (max 0 (jsNumOr (.jnum (max 0 (jsNumOr (jget f "carbs") 0))) 0))),
      ("protein", .jnum (max 0 (jsNumOr (.jnum (max 0 (jsNumOr (jget f "protein") 0))) 0))),
      ("fat", .jnum (max 0 (jsNumOr (.jnum (max 0 (jsNumOr (jget f "fat") 0))) 0))),
      ("fiber", .jnum (max 0 (jsNumOr (.jnum (max 0 (jsNumOr (jget f "fiber") 0))) 0))),
      ("netCarbs", .jnum (max 0 (jsNumOr (.jnum (max 0 (jsNumOr (jget f "carbs") 0))) 0
        - jsNumOr (.jnum (max 0 (jsNumOr (jget f "fiber") 0))) 0))),
      ("servingSize", .jnum (max 1 (jsNumOr (.jnum (max 1 (jsNumOr (jget f "servingSize") 100))) 100))),
      ("unit", .jstr (jsString (jsOrV
        (.jstr (jsString (jsOrV (jget f "unit") (.jstr "g")))) (.jstr "g"))))] := rfl
  have hnm := jsOrV_jstr_of_ne (jsString (jsOrV (jget f "name") (.jstr "Alimento")))
    (.jstr "Alimento") hn
  have hum := jsOrV_jstr_of_ne (jsString (jsOrV (jget f "unit") (.jstr "g")))
    (.jstr "g") hu
  have hnc : (max 0 (jsNumOr (.jnum (max 0 (jsNumOr (jget f "carbs") 0))) 0
      - jsNumOr (.jnum (max 0 (jsNumOr (jget f "fiber") 0))) 0))
      = max 0 (jsNumOr (jget f "carbs") 0 - jsNumOr (jget f "fiber") 0) := by
    rw [max_eq_right hc, max_eq_right hfb, jsNumOr_jnum_zero, jsNumOr_jnum_zero]
  rw [step, hnm, hum, jsString_jstr, jsString_jstr, hnc]
  simp only [clamp_roundtrip, serving_roundtrip]
  rfl

/-- Claim C9 counterexample: the vision-fallback normalizer is not
idempotent.  On the item with fiber -1 (carbs absent) it first produces
netCarbs max (0, 0 - (-1)) = 1 while clamping fiber to 0; re-applying it
then recomputes netCarbs as max (0, 0 - 0) = 0, changing the item. -/
theorem C9_counterexample :
    normalizeFoodVisionFB (normalizeFoodVisionFB (JValue.jobj [("fiber", JValue.jnum (-1))]))
      ≠ normalizeFoodVisionFB (JValue.jobj [("fiber", JValue.jnum (-1))])
    ∧ jget (normalizeFoodVisionFB (JValue.jobj [("fiber", JValue.jnum (-1))])) "netCarbs"
      = JValue.jnum 1
    ∧ jget (normalizeFoodVisionFB (normalizeFoodVisionFB
        (JValue.jobj [("fiber", JValue.jnum (-1))]))) "netCarbs" = JValue.jnum 0 := by
  have h1 : jsNumOr JValue.jundefined 0 = 0 := rfl
  have h2 : jsNumOr (JValue.jnum (-1)) 0 = -1 :=
    jsNumOr_jnum_of_ne (-1) 0 (by norm_num)
  have e1 : jget (normalizeFoodVisionFB (JValue.jobj [("fiber", JValue.jnum (-1))])) "netCarbs"
      = JValue.jnum 1 := by
    rw [normVisionFB_netCarbs]
    rw [show jget (JValue.jobj [("fiber", JValue.jnum (-1))]) "carbs" = JValue.jundefined from rfl]
    rw [show jget (JValue.jobj [("fiber", JValue.jnum (-1))]) "fiber" = JValue.jnum (-1) from rfl]
    rw [h1, h2]
    rw [show (0 : ℚ) - (-1) = 1 by norm_num, max_eq_right (by norm_num : (0 : ℚ) ≤ 1)]
  have e2 : jget (normalizeFoodVisionFB (normalizeFoodVisionFB
      (JValue.jobj [("fiber", JValue.jnum (-1))]))) "netCarbs" = JValue.jnum 0 := by
    rw [normVisionFB_netCarbs, normVisionFB_carbs, normVisionFB_fiber]
    rw [show jget (JValue.jobj [("fiber", JValue.jnum (-1))]) "carbs" = JValue.jundefined from rfl]
    rw [show jget (JValue.jobj [("fiber", JValue.jnum (-1))]) "fiber" = JValue.jnum (-1) from rfl]
    rw [h1, h2]
    rw [show max (0 : ℚ) 0 = 0 from max_self 0,
      show max (0 : ℚ) (-1) = 0 from max_eq_left (by norm_num)]
    rw [jsNumOr_jnum_zero]
    rw [show (0 : ℚ) - 0 = 0 by norm_num, max_self]
  refine ⟨?_, e1, e2⟩
  intro h
  have h3 := congrArg (fun v => jget v "netCarbs") h
  simp only [e1, e2] at h3
  have h4 := JValue.jnum.inj h3
  norm_num at h4

/-- Claim C9: the basic per-item normalizer (part_002 text handler and
single-model photo handlers) is idempotent for arbitrary items and
recomputes netCarbs as max (0, carbs - fiber) of the coerced input; the
vision-fallback normalizer also recomputes netCarbs from the coerced
(unclamped) carbs and fiber, and it is idempotent provided those coerced
values are non-negative and name and unit stringify non-empty. -/
theorem C9_normalization_idempotence :
    (∀ f : JValue, normalizeFoodBasic (normalizeFoodBasic f) = normalizeFoodBasic f)
    ∧ (∀ f : JValue, jget (normalizeFoodBasic f) "netCarbs"
        = .jnum (max 0 (jsNumOr (jget f "carbs") 0 - jsNumOr (jget f "fiber") 0)))
    ∧ (∀ f : JValue, jget (normalizeFoodVisionFB f) "netCarbs"
        = .jnum (max 0 (jsNumOr (jget f "carbs") 0 - jsNumOr (jget f "fiber") 0)))
    ∧ (∀ f : JValue, 0 ≤ jsNumOr (jget f "carbs") 0 → 0 ≤ jsNumOr (jget f "fiber") 0 →
        jsString (jsOrV (jget f "name") (.jstr "Alimento")) ≠ "" →
        jsString (jsOrV (jget f "unit") (.jstr "g")) ≠ "" →
        normalizeFoodVisionFB (normalizeFoodVisionFB f) = normalizeFoodVisionFB f) :=
  ⟨normalizeFoodBasic_idem, normBasic_netCarbs, normVisionFB_netCarbs,
    normalizeFoodVisionFB_idem⟩

/-- Witness for C9_normalization_idempotence at a concrete item with
carbs 5, discharging the non-negativity and string hypotheses. -/
theorem C9_witness :
    normalizeFoodVisionFB (normalizeFoodVisionFB (JValue.jobj [("carbs", JValue.jnum 5)]))
      = normalizeFoodVisionFB (JValue.jobj [("carbs", JValue.jnum 5)]) := by
  refine C9_normalization_idempotence.2.2.2 (JValue.jobj [("carbs", JValue.jnum 5)]) ?_ ?_ ?_ ?_
  · rw [show jget (JValue.jobj [("carbs", JValue.jnum 5)]) "carbs" = JValue.jnum 5 from rfl,
      jsNumOr_jnum_zero]
    norm_num
  · rw [show jget (JValue.jobj [("carbs", JValue.jnum 5)]) "fiber" = JValue.jundefined from rfl,
      show jsNumOr JValue.jundefined 0 = 0 from rfl]
  · rw [show jsOrV (jget (JValue.jobj [("carbs", JValue.jnum 5)]) "name")
        (JValue.jstr "Alimento") = JValue.jstr "Alimento" from rfl, jsString_jstr]
    decide
  · rw [show jsOrV (jget (JValue.jobj [("carbs", JValue.jnum 5)]) "unit")
        (JValue.jstr "g") = JValue.jstr "g" from rfl, jsString_jstr]
    decide

/-- Success path of the part_002 analyze-text handler: with a credential,
a nonblank description and a parsed result whose foods is a nonempty
array, the response carries the normalized items and either the
model-supplied totals (when truthy) or the reduce over the normalized
items. -/
lemma analyzeTextV2_success (env hdr description text : Option String)
    (result : JValue) (xs : List JValue)
    (hkey : keyMissing env hdr = false)
    (hdesc : jsTrim (jsOrS description (jsOrS text "")) ≠ "")
    (hfoods : jget result "foods" = .jarr xs) (hxs : xs ≠ []) :
    analyzeTextV2 env hdr description text (.ok (.ok result))
      = (okFoods (xs.map normalizeFoodBasic)
          (if truthy (jget result "totalNutrition") then jget result "totalNutrition"
           else sumTotalsReduce (xs.map normalizeFoodBasic)), 1) := by
  have h1 : jsOrS description (jsOrS text "") ≠ "" := by
    intro h
    exact hdesc (by rw [h]; rfl)
  unfold analyzeTextV2
  simp [hkey, h1, hdesc, hfoods, truthy, isJArr, jsLengthEqZero, jsLength, hxs]

/-- Success path of the single-model photo post-parse handler. -/
lemma handleParsedPhotoSingle_success (result : JValue) (xs : List JValue)
    (hfoods : jget result "foods" = .jarr xs) (hxs : xs ≠ []) :
    handleParsedPhotoSingle result
      = okFoods (xs.map normalizeFoodBasic)
          (if truthy (jget result "totalNutrition") then jget result "totalNutrition"
           else sumTotalsReduce (xs.map normalizeFoodBasic)) := by
  unfold handleParsedPhotoSingle
  simp [hfoods, truthy, jsLengthEqZero, jsLength, hxs]

/-- Success path of the vision-fallback post-parse handler. -/
lemma handleParsedVisionFB_success (result : JValue) (xs : List JValue)
    (hfoods : jget result "foods" = .jarr xs) (hxs : xs ≠ []) :
    handleParsedVisionFB result
      = .inl (okFoods (xs.map normalizeFoodVisionFB)
          (if truthy (jget result "totalNutrition") then jget result "totalNutrition"
           else sumTotalsReduce (xs.map normalizeFoodVisionFB))) := by
  unfold handleParsedVisionFB
  simp [hfoods, truthy, jsLengthEqZero, jsLength, hxs]

/-- Claim C1 counterexample: the plain analyze-text route
(app/api/analyze-text/route.ts) performs no per-item normalization; a
parsed food item with carbs 5, fiber 1 and model-supplied netCarbs 42 is
returned unchanged, so its netCarbs field is 42 while
max (0, carbs - fiber) is 4. -/
theorem C1_counterexample :
    (analyzeTextPlain (some "k") none (some "eggs") none
      (.ok (.ok (JValue.jobj [("foods", JValue.jarr [JValue.jobj
        [("name", JValue.jstr "x"), ("carbs", JValue.jnum 5),
         ("fiber", JValue.jnum 1), ("netCarbs", JValue.jnum 42)]])])))).1.foods
      = [JValue.jobj [("name", JValue.jstr "x"), ("carbs", JValue.jnum 5),
         ("fiber", JValue.jnum 1), ("netCarbs", JValue.jnum 42)]]
    ∧ jget (JValue.jobj [("name", JValue.jstr "x"), ("carbs", JValue.jnum 5),
        ("fiber", JValue.jnum 1), ("netCarbs", JValue.jnum 42)]) "netCarbs" = JValue.jnum 42
    ∧ (42 : ℚ) ≠ max 0 ((5 : ℚ) - 1) := by
  refine ⟨rfl, rfl, ?_⟩
  rw [show (5 : ℚ) - 1 = 4 by norm_num, max_eq_right (by norm_num : (0 : ℚ) ≤ 4)]
  norm_num

/-- Claim C1 (amended): in the pipelines that apply a normalizer (the
part_002 analyze-text handler and both photo handlers), every output
food item has netCarbs equal to max (0, carbs - fiber) of the
number-coerced carbs and fiber of the parsed item, regardless of any
model-supplied netCarbs; the plain analyze-text route instead returns
the parsed items unchanged. -/
theorem C1_netCarbs_recomputed :
    (∀ f : JValue, jget (normalizeFoodBasic f) "netCarbs"
      = .jnum (max 0 (jsNumOr (jget f "carbs") 0 - jsNumOr (jget f "fiber") 0)))
    ∧ (∀ f : JValue, jget (normalizeFoodVisionFB f) "netCarbs"
      = .jnum (max 0 (jsNumOr (jget f "carbs") 0 - jsNumOr (jget f "fiber") 0)))
    ∧ (∀ (env hdr description text : Option String) (result : JValue) (xs : List JValue),
        keyMissing env hdr = false →
        jsTrim (jsOrS description (jsOrS text "")) ≠ "" →
        jget result "foods" = .jarr xs → xs ≠ [] →
        (analyzeTextV2 env hdr description text (.ok (.ok result))).1.foods
          = xs.map normalizeFoodBasic)
    ∧ (∀ (result : JValue) (xs : List JValue),
        jget result "foods" = .jarr xs → xs ≠ [] →
        (handleParsedPhotoSingle result).foods = xs.map normalizeFoodBasic)
    ∧ (∀ (result : JValue) (xs : List JValue),
        jget result "foods" = .jarr xs → xs ≠ [] →
        ∃ tot, handleParsedVisionFB result
          = .inl (okFoods (xs.map normalizeFoodVisionFB) tot)) := by
  refine ⟨normBasic_netCarbs, normVisionFB_netCarbs, ?_, ?_, ?_⟩
  · intro env hdr description text result xs hkey hdesc hfoods hxs
    rw [analyzeTextV2_success env hdr description text result xs hkey hdesc hfoods hxs]
    rfl
  · intro result xs hfoods hxs
    rw [handleParsedPhotoSingle_success result xs hfoods hxs]
    rfl
  · intro result xs hfoods hxs
    exact ⟨_, handleParsedVisionFB_success result xs hfoods hxs⟩

/-- Witness for C1_netCarbs_recomputed on the text pipeline at a
concrete request and parsed result. -/
theorem C1_witness :
    (analyzeTextV2 (some "k") none (some "eggs") none
      (.ok (.ok (JValue.jobj [("foods",
        JValue.jarr [JValue.jobj [("carbs", JValue.jnum 5)]])])))).1.foods
      = [JValue.jobj [("carbs", JValue.jnum 5)]].map normalizeFoodBasic := by
  exact C1_netCarbs_recomputed.2.2.1 (some "k") none (some "eggs") none
    (JValue.jobj [("foods", JValue.jarr [JValue.jobj [("carbs", JValue.jnum 5)]])])
    [JValue.jobj [("carbs", JValue.jnum 5)]]
    (by decide) (by decide) rfl (by simp)

/-- Totals object with the six numeric fields. -/
def mkTotals (a b c d e g : ℚ) : JValue :=
  .jobj [("calories", .jnum a), ("carbs", .jnum b), ("protein", .jnum c),
    ("fat", .jnum d), ("fiber", .jnum e), ("netCarbs", .jnum g)]

/-- The six nutrition fields of an item are plain numbers (true of every
normalizer output). -/
def NumSix (f : JValue) : Prop :=
  (∃ q : ℚ, jget f "calories" = .jnum q) ∧ (∃ q : ℚ, jget f "carbs" = .jnum q)
  ∧ (∃ q : ℚ, jget f "protein" = .jnum q) ∧ (∃ q : ℚ, jget f "fat" = .jnum q)
  ∧ (∃ q : ℚ, jget f "fiber" = .jnum q) ∧ (∃ q : ℚ, jget f "netCarbs" = .jnum q)

/-- Field-wise sum of the coerced values of one key over a foods list. -/
def sumKey (fs : List JValue) (k : String) : ℚ :=
  (fs.map (fun f => jsNumOr (jget f k) 0)).sum

/-- One totals reduce step on a numeric-fields item adds field-wise. -/
lemma addTotalsStep_mk (a b c d e g : ℚ) (f : JValue) (hf : NumSix f) :
    addTotalsStep (mkTotals a b c d e g) f
      = mkTotals (a + jsNumOr (jget f "calories") 0) (b + jsNumOr (jget f "carbs") 0)
          (c + jsNumOr (jget f "protein") 0) (d + jsNumOr (jget f "fat") 0)
          (e + jsNumOr (jget f "fiber") 0) (g + jsNumOr (jget f "netCarbs") 0) := by
  obtain ⟨⟨q1, h1⟩, ⟨q2, h2⟩, ⟨q3, h3⟩, ⟨q4, h4⟩, ⟨q5, h5⟩, ⟨q6, h6⟩⟩ := hf
  unfold addTotalsStep
  rw [h1, h2, h3, h4, h5, h6]
  simp only [jsNumOr_jnum_zero]
  rfl

/-- Accumulated form of the totals reduce over numeric-fields items. -/
lemma sumTotals_go (fs : List JValue) :
    ∀ a b c d e g : ℚ, (∀ f ∈ fs, NumSix f) →
      fs.foldl addTotalsStep (mkTotals a b c d e g)
        = mkTotals (a + sumKey fs "calories") (b + sumKey fs "carbs")
            (c + sumKey fs "protein") (d + sumKey fs "fat")
            (e + sumKey fs "fiber") (g + sumKey fs "netCarbs") := by
  induction fs with
  | nil =>
    intro a b c d e g _
    simp [sumKey]
  | cons f fs ih =>
    intro a b c d e g h
    have hf := h f (List.mem_cons_self f fs)
    rw [List.foldl_cons, addTotalsStep_mk a b c d e g f hf,
      ih _ _ _ _ _ _ (fun x hx => h x (List.mem_cons_of_mem f hx))]
    simp [sumKey, add_assoc]

/-- The totals reduce over normalizer outputs is the field-wise sum. -/
lemma sumTotalsReduce_eq (fs : List JValue) (h : ∀ f ∈ fs, NumSix f) :
    sumTotalsReduce fs
      = mkTotals (sumKey fs "calories") (sumKey fs "carbs") (sumKey fs "protein")
          (sumKey fs "fat") (sumKey fs "fiber") (sumKey fs "netCarbs") := by
  unfold sumTotalsReduce
  rw [show zeroTotals = mkTotals 0 0 0 0 0 0 from rfl, sumTotals_go fs 0 0 0 0 0 0 h]
  simp

/-- Every basic-normalizer output has numeric nutrition fields. -/
lemma normBasic_numsix (f : JValue) : NumSix (normalizeFoodBasic f) :=
  ⟨⟨_, rfl⟩, ⟨_, rfl⟩, ⟨_, rfl⟩, ⟨_, rfl⟩, ⟨_, rfl⟩, ⟨_, rfl⟩⟩

/-- Every vision-fallback-normalizer output has numeric fields. -/
lemma normVisionFB_numsix (f : JValue) : NumSix (normalizeFoodVisionFB f) :=
  ⟨⟨_, rfl⟩, ⟨_, rfl⟩, ⟨_, rfl⟩, ⟨_, rfl⟩, ⟨_, rfl⟩, ⟨_, rfl⟩⟩

/-- All members of a basic-normalized list have numeric fields. -/
lemma map_normBasic_numsix (xs : List JValue) :
    ∀ g ∈ xs.map normalizeFoodBasic, NumSix g := by
  intro g hg
  rcases List.mem_map.mp hg with ⟨x, _, rfl⟩
  exact normBasic_numsix x

/-- All members of a vision-normalized list have numeric fields. -/
lemma map_normVisionFB_numsix (xs : List JValue) :
    ∀ g ∈ xs.map normalizeFoodVisionFB, NumSix g := by
  intro g hg
  rcases List.mem_map.mp hg with ⟨x, _, rfl⟩
  exact normVisionFB_numsix x

/-- Claim C2 counterexample: when the parsed response already carries a
totalNutrition object, every handler keeps it unchanged instead of
recomputing it from the items (the code only computes totals under
if (!result.totalNutrition)).  Here the model supplies calories 999
while the single food item has calories 100, and the returned totals
differ from the reduce over the normalized items. -/
theorem C2_counterexample :
    (analyzeTextV2 (some "k") none (some "eggs") none
      (.ok (.ok (JValue.jobj [("foods", JValue.jarr [JValue.jobj [("calories", JValue.jnum 100)]]),
        ("totalNutrition", JValue.jobj [("calories", JValue.jnum 999)])])))).1.totalNutrition
      = JValue.jobj [("calories", JValue.jnum 999)]
    ∧ (analyzeTextV2 (some "k") none (some "eggs") none
      (.ok (.ok (JValue.jobj [("foods", JValue.jarr [JValue.jobj [("calories", JValue.jnum 100)]]),
        ("totalNutrition", JValue.jobj [("calories", JValue.jnum 999)])])))).1.totalNutrition
      ≠ sumTotalsReduce ([JValue.jobj [("calories", JValue.jnum 100)]].map normalizeFoodBasic) := by
  refine ⟨rfl, ?_⟩
  rw [show (analyzeTextV2 (some "k") none (some "eggs") none
      (.ok (.ok (JValue.jobj [("foods", JValue.jarr [JValue.jobj [("calories", JValue.jnum 100)]]),
        ("totalNutrition", JValue.jobj [("calories", JValue.jnum 999)])])))).1.totalNutrition
      = JValue.jobj [("calories", JValue.jnum 999)] from rfl]
  intro h
  have h2 : jget (JValue.jobj [("calories", JValue.jnum 999)]) "calories"
      = jget (sumTotalsReduce ([JValue.jobj [("calories", JValue.jnum 100)]].map
          normalizeFoodBasic)) "calories" := congrArg (fun v => jget v "calories") h
  rw [show jget (JValue.jobj [("calories", JValue.jnum 999)]) "calories"
      = JValue.jnum 999 from rfl] at h2
  rw [show jget (sumTotalsReduce ([JValue.jobj [("calories", JValue.jnum 100)]].map
      normalizeFoodBasic)) "calories" = JValue.jnum (0 + 100) from rfl] at h2
  have h3 := JValue.jnum.inj h2
  norm_num at h3

/-- Claim C2 (amended): when the parsed response supplies no (truthy)
totalNutrition, each normalizing handler returns totals equal to the
field-wise sum over its normalized items; when the model did supply a
totalNutrition, it is passed through unchanged rather than recomputed. -/
theorem C2_totals :
    (∀ (env hdr description text : Option String) (result : JValue) (xs : List JValue),
      keyMissing env hdr = false → jsTrim (jsOrS description (jsOrS text "")) ≠ "" →
      jget result "foods" = .jarr xs → xs ≠ [] →
      truthy (jget result "totalNutrition") = false →
      (analyzeTextV2 env hdr description text (.ok (.ok result))).1.totalNutrition
        = mkTotals (sumKey (xs.map normalizeFoodBasic) "calories")
            (sumKey (xs.map normalizeFoodBasic) "carbs")
            (sumKey (xs.map normalizeFoodBasic) "protein")
            (sumKey (xs.map normalizeFoodBasic) "fat")
            (sumKey (xs.map normalizeFoodBasic) "fiber")
            (sumKey (xs.map normalizeFoodBasic) "netCarbs"))
    ∧ (∀ (env hdr description text : Option String) (result : JValue) (xs : List JValue),
      keyMissing env hdr = false → jsTrim (jsOrS description (jsOrS text "")) ≠ "" →
      jget result "foods" = .jarr xs → xs ≠ [] →
      truthy (jget result "totalNutrition") = true →
      (analyzeTextV2 env hdr description text (.ok (.ok result))).1.totalNutrition
        = jget result "totalNutrition")
    ∧ (∀ (result : JValue) (xs : List JValue),
      jget result "foods" = .jarr xs → xs ≠ [] →
      truthy (jget result "totalNutrition") = false →
      (handleParsedPhotoSingle result).totalNutrition
        = mkTotals (sumKey (xs.map normalizeFoodBasic) "calories")
            (sumKey (xs.map normalizeFoodBasic) "carbs")
            (sumKey (xs.map normalizeFoodBasic) "protein")
            (sumKey (xs.map normalizeFoodBasic) "fat")
            (sumKey (xs.map normalizeFoodBasic) "fiber")
            (sumKey (xs.map normalizeFoodBasic) "netCarbs"))
    ∧ (∀ (result : JValue) (xs : List JValue),
      jget result "foods" = .jarr xs → xs ≠ [] →
      truthy (jget result "totalNutrition") = true →
      (handleParsedPhotoSingle result).totalNutrition = jget result "totalNutrition")
    ∧ (∀ (result : JValue) (xs : List JValue),
      jget result "foods" = .jarr xs → xs ≠ [] →
      truthy (jget result "totalNutrition") = false →
      handleParsedVisionFB result
        = .inl (okFoods (xs.map normalizeFoodVisionFB)
            (mkTotals (sumKey (xs.map normalizeFoodVisionFB) "calories")
              (sumKey (xs.map normalizeFoodVisionFB) "carbs")
              (sumKey (xs.map normalizeFoodVisionFB) "protein")
              (sumKey (xs.map normalizeFoodVisionFB) "fat")
              (sumKey (xs.map normalizeFoodVisionFB) "fiber")
              (sumKey (xs.map normalizeFoodVisionFB) "netCarbs"))))
    ∧ (∀ (result : JValue) (xs : List JValue),
      jget result "foods" = .jarr xs → xs ≠ [] →
      truthy (jget result "totalNutrition") = true →
      handleParsedVisionFB result
        = .inl (okFoods (xs.map normalizeFoodVisionFB) (jget result "totalNutrition"))) := by
  refine ⟨?_, ?_, ?_, ?_, ?_, ?_⟩
  · intro env hdr description text result xs hkey hdesc hfoods hxs hTot
    rw [analyzeTextV2_success env hdr description text result xs hkey hdesc hfoods hxs]
    show (if truthy (jget result "totalNutrition") = true then jget result "totalNutrition"
      else sumTotalsReduce (xs.map normalizeFoodBasic)) = _
    rw [hTot]
    simp only [Bool.false_eq_true, if_false]
    exact sumTotalsReduce_eq _ (map_normBasic_numsix xs)
  · intro env hdr description text result xs hkey hdesc hfoods hxs hTot
    rw [analyzeTextV2_success env hdr description text result xs hkey hdesc hfoods hxs]
    show (if truthy (jget result "totalNutrition") = true then jget result "totalNutrition"
      else sumTotalsReduce (xs.map normalizeFoodBasic)) = _
    rw [hTot]
    simp
  · intro result xs hfoods hxs hTot
    rw [handleParsedPhotoSingle_success result xs hfoods hxs]
    show (if truthy (jget result "totalNutrition") = true then jget result "totalNutrition"
      else sumTotalsReduce (xs.map normalizeFoodBasic)) = _
    rw [hTot]
    simp only [Bool.false_eq_true, if_false]
    exact sumTotalsReduce_eq _ (map_normBasic_numsix xs)
  · intro result xs hfoods hxs hTot
    rw [handleParsedPhotoSingle_success result xs hfoods hxs]
    show (if truthy (jget result "totalNutrition") = true then jget result "totalNutrition"
      else sumTotalsReduce (xs.map normalizeFoodBasic)) = _
    rw [hTot]
    simp
  · intro result xs hfoods hxs hTot
    rw [handleParsedVisionFB_success result xs hfoods hxs, hTot]
    simp only [Bool.false_eq_true, if_false]
    rw [sumTotalsReduce_eq _ (map_normVisionFB_numsix xs)]
  · intro result xs hfoods hxs hTot
    rw [handleParsedVisionFB_success result xs hfoods hxs, hTot]
    simp

/-- Witness for C2_totals: totals computed as the field-wise sum at a
concrete parsed result without model totals. -/
theorem C2_witness :
    (analyzeTextV2 (some "k") none (some "eggs") none
      (.ok (.ok (JValue.jobj [("foods",
        JValue.jarr [JValue.jobj [("calories", JValue.jnum 100)]])])))).1.totalNutrition
      = mkTotals (sumKey ([JValue.jobj [("calories", JValue.jnum 100)]].map normalizeFoodBasic) "calories")
          (sumKey ([JValue.jobj [("calories", JValue.jnum 100)]].map normalizeFoodBasic) "carbs")
          (sumKey ([JValue.jobj [("calories", JValue.jnum 100)]].map normalizeFoodBasic) "protein")
          (sumKey ([JValue.jobj [("calories", JValue.jnum 100)]].map normalizeFoodBasic) "fat")
          (sumKey ([JValue.jobj [("calories", JValue.jnum 100)]].map normalizeFoodBasic) "fiber")
          (sumKey ([JValue.jobj [("calories", JValue.jnum 100)]].map normalizeFoodBasic) "netCarbs") := by
  exact C2_totals.1 (some "k") none (some "eggs") none
    (JValue.jobj [("foods", JValue.jarr [JValue.jobj [("calories", JValue.jnum 100)]])])
    [JValue.jobj [("calories", JValue.jnum 100)]]
    (by decide) (by decide) rfl (by simp) rfl

/-- True when the loop body continues to the next (model, attempt) pair
on this outcome (records a lastError) rather than returning. -/
def visionContinues (o : ChatOutcome) : Bool :=
  match visionStep o with
  | .inl _ => false
  | .inr _ => true

/-- The lastError message a continue-class outcome records. -/
def contMsg (o : ChatOutcome) : String :=
  match visionStep o with
  | .inl _ => ""
  | .inr m => m

/-- Unfolding step of the loop on a continue-class outcome. -/
lemma visionTryList_cons_inr (x : ChatOutcome) (rest : List ChatOutcome)
    (le : Option String) (m : String) (hstep : visionStep x = .inr m) :
    visionTryList (x :: rest) le
      = ((visionTryList rest (some m)).1, (visionTryList rest (some m)).2 + 1) := by
  simp [visionTryList, hstep]

/-- Unfolding step of the loop on an immediate-return outcome. -/
lemma visionTryList_cons_inl (x : ChatOutcome) (rest : List ChatOutcome)
    (le : Option String) (resp : ApiResp) (hstep : visionStep x = .inl resp) :
    visionTryList (x :: rest) le = (resp, 1) := by
  simp [visionTryList, hstep]

/-- A continue-class outcome is a Sum.inr step carrying its message. -/
lemma visionContinues_inr (x : ChatOutcome) (hx : visionContinues x = true) :
    visionStep x = .inr (contMsg x) := by
  unfold visionContinues at hx
  unfold contMsg
  cases hstep : visionStep x with
  | inl r =>
    rw [hstep] at hx
    exact absurd hx Bool.false_ne_true
  | inr m => rfl

/-- A 401 or 403 outcome returns the invalid-credential response at once,
consuming exactly the pairs before it plus itself, independent of
whatever outcomes would follow. -/
lemma visionTryList_credFail (pre : List ChatOutcome) (s : ℕ)
    (post : List ChatOutcome) (le : Option String)
    (hpre : ∀ x ∈ pre, visionContinues x = true) (hs : s = 401 ∨ s = 403) :
    visionTryList (pre ++ ChatOutcome.httpErr s :: post) le
      = (failResp "API Key inválida. Verifica en console.groq.com", pre.length + 1) := by
  induction pre generalizing le with
  | nil =>
    have hstep : visionStep (ChatOutcome.httpErr s)
        = .inl (failResp "API Key inválida. Verifica en console.groq.com") := by
      rcases hs with h | h <;> simp [visionStep, h]
    rw [List.nil_append, visionTryList_cons_inl _ _ _ _ hstep]
    rfl
  | cons x pre ih =>
    have hx := hpre x (List.mem_cons_self x pre)
    have hstep := visionContinues_inr x hx
    rw [List.cons_append, visionTryList_cons_inr x _ le (contMsg x) hstep,
      ih (some (contMsg x)) (fun y hy => hpre y (List.mem_cons_of_mem x hy))]
    simp

/-- When every outcome is continue-class, the loop exhausts the list and
fails with the message of the last outcome, consuming every pair. -/
lemma visionTryList_exhaust (outs : List ChatOutcome) (le : Option String)
    (m : ChatOutcome) (hlast : outs.getLast? = some m)
    (hcont : ∀ x ∈ outs, visionContinues x = true) :
    visionTryList outs le = (failResp (contMsg m), outs.length) := by
  induction outs generalizing le with
  | nil => simp at hlast
  | cons x rest ih =>
    have hx := hcont x (List.mem_cons_self x rest)
    have hstep := visionContinues_inr x hx
    cases rest with
    | nil =>
      have hm : m = x := by
        simp [List.getLast?] at hlast
        exact hlast.symm
      subst hm
      rw [visionTryList_cons_inr m [] le (contMsg m) hstep]
      rfl
    | cons y ys =>
      rw [List.getLast?_cons_cons] at hlast
      have hrec := ih (some (contMsg x)) hlast
        (fun z hz => hcont z (List.mem_cons_of_mem x hz))
      rw [visionTryList_cons_inr x (y :: ys) le (contMsg x) hstep, hrec]
      simp

/-- Claim C3: the fallback handler iterates the two candidate vision
models with two attempts each, in order; a 401 or 403 outcome returns
the invalid-credential failure immediately without consuming any later
(model, attempt) pair; 429, 400, other non-OK statuses and thrown or
parse failures record their message and continue; and when every pair is
exhausted the failure carries the last observed error message. -/
theorem C3_vision_fallback :
    visionPairs = [("llama-3.2-11b-vision-preview", 1), ("llama-3.2-11b-vision-preview", 2),
      ("llama-3.2-90b-vision-preview", 1), ("llama-3.2-90b-vision-preview", 2)]
    ∧ (∀ (pre : List ChatOutcome) (s : ℕ) (post : List ChatOutcome) (le : Option String),
        (∀ x ∈ pre, visionContinues x = true) → (s = 401 ∨ s = 403) →
        visionTryList (pre ++ ChatOutcome.httpErr s :: post) le
          = (failResp "API Key inválida. Verifica en console.groq.com", pre.length + 1))
    ∧ (∀ m : String, visionContinues (.thrown m) = true)
    ∧ (∀ s : ℕ, ¬(s = 401 ∨ s = 403) → visionContinues (.httpErr s) = true)
    ∧ visionContinues (.ok (.error ())) = true
    ∧ contMsg (.httpErr 429) = "Límite de API alcanzado. Espera un momento."
    ∧ contMsg (.httpErr 400) = "Imagen no procesada. Intenta con texto."
    ∧ (∀ s : ℕ, ¬(s = 401 ∨ s = 403) → s ≠ 429 → s ≠ 400 →
        contMsg (.httpErr s) = "Error " ++ toString s)
    ∧ (∀ (outs : List ChatOutcome) (le : Option String) (m : ChatOutcome),
        outs.getLast? = some m → (∀ x ∈ outs, visionContinues x = true) →
        visionTryList outs le = (failResp (contMsg m), outs.length))
    ∧ (∀ (env hdr : Option String) (img : Option String)
        (net : String → String × ℕ → ChatOutcome),
        img.getD "" ≠ "" → keyMissing env hdr = false →
        ¬(imageSizeKB (img.getD "") < 5) → ¬(imageSizeKB (img.getD "") > 4000) →
        analyzePhotoFallback env hdr img net
          = visionTryList (visionPairs.map (net (visionRequestUrl (img.getD "")))) none) := by
  refine ⟨rfl, visionTryList_credFail, ?_, ?_, rfl, rfl, rfl, ?_, visionTryList_exhaust, ?_⟩
  · intro m
    rfl
  · intro s hs
    have h1 : s ≠ 401 := fun h => hs (Or.inl h)
    have h2 : s ≠ 403 := fun h => hs (Or.inr h)
    unfold visionContinues visionStep
    simp [h1, h2]
    split_ifs <;> rfl
  · intro s hs h429 h400
    have h1 : s ≠ 401 := fun h => hs (Or.inl h)
    have h2 : s ≠ 403 := fun h => hs (Or.inr h)
    unfold contMsg visionStep
    simp [h1, h2, h429, h400]
  · intro env hdr img net himg hkey hsmall hbig
    unfold analyzePhotoFallback
    simp [himg, hkey, hsmall, hbig]

/-- Witness for C3_vision_fallback: a rate-limited first attempt followed
by a 401 stops after two calls with the invalid-credential response, and
a fully continue-class outcome list exhausts with the last message. -/
theorem C3_witness :
    visionTryList [ChatOutcome.httpErr 429, ChatOutcome.httpErr 401, ChatOutcome.thrown "x"] none
      = (failResp "API Key inválida. Verifica en console.groq.com", 2)
    ∧ visionTryList [ChatOutcome.httpErr 429, ChatOutcome.ok (.error ())] none
      = (failResp (contMsg (ChatOutcome.ok (.error ()))), 2) := by
  constructor
  · exact C3_vision_fallback.2.1 [ChatOutcome.httpErr 429] 401 [ChatOutcome.thrown "x"] none
      (by
        intro x hx
        rw [List.mem_singleton] at hx
        subst hx
        rfl)
      (Or.inl rfl)
  · exact C3_vision_fallback.2.2.2.2.2.2.2.2.1
      [ChatOutcome.httpErr 429, ChatOutcome.ok (.error ())] none
      (ChatOutcome.ok (.error ())) rfl
      (by
        intro x hx
        rcases List.mem_cons.mp hx with h | h
        · subst h
          rfl
        · rw [List.mem_singleton] at h
          subst h
          rfl)

/-- Claim C4: with no credential from the environment or the
X-Groq-API-Key header (both absent or empty), every route handler --
text (both variants), photo (both variants) and voice transcription --
returns its missing-credential response immediately and performs zero
provider calls. -/
theorem C4_missing_credential :
    (∀ (env hdr description text : Option String) (net : ChatOutcome),
      keyMissing env hdr = true →
      analyzeTextPlain env hdr description text net
        = (failResp "API key no configurada. Ve a Configuración para agregar tu API key de Groq.", 0))
    ∧ (∀ (env hdr description text : Option String) (net : ChatOutcome),
      keyMissing env hdr = true →
      analyzeTextV2 env hdr description text net
        = (failResp "API key no configurada. Ve a Configuración para agregar tu API key de Groq.", 0))
    ∧ (∀ (env hdr img : Option String) (net : String → ChatOutcome),
      keyMissing env hdr = true → img.getD "" ≠ "" →
      analyzePhotoSingle env hdr img net
        = (failResp "API key no configurada. Ve a Configuración para agregar tu API key de Groq.", 0))
    ∧ (∀ (env hdr img : Option String) (net : String → String × ℕ → ChatOutcome),
      keyMissing env hdr = true → img.getD "" ≠ "" →
      analyzePhotoFallback env hdr img net
        = (failResp "API key no configurada. Ve a Configuración.", 0))
    ∧ (∀ (env hdr audio : Option String) (net : TransOutcome),
      keyMissing env hdr = true → audio.getD "" ≠ "" →
      transcribeRoute env hdr audio net = (failResp "API key no configurada.", 0)) := by
  refine ⟨?_, ?_, ?_, ?_, ?_⟩
  · intro env hdr description text net hkey
    unfold analyzeTextPlain
    simp [hkey]
  · intro env hdr description text net hkey
    unfold analyzeTextV2
    simp [hkey]
  · intro env hdr img net hkey himg
    unfold analyzePhotoSingle
    simp [hkey, himg]
  · intro env hdr img net hkey himg
    unfold analyzePhotoFallback
    simp [hkey, himg]
  · intro env hdr audio net hkey haudio
    unfold transcribeRoute
    simp [hkey, haudio]

/-- Witness for C4_missing_credential at concrete requests with both
credential sources absent. -/
theorem C4_witness :
    analyzeTextPlain none none (some "eggs") none (ChatOutcome.thrown "boom")
      = (failResp "API key no configurada. Ve a Configuración para agregar tu API key de Groq.", 0)
    ∧ analyzePhotoSingle none (some "") (some "abc") (fun _ => ChatOutcome.httpErr 500)
      = (failResp "API key no configurada. Ve a Configuración para agregar tu API key de Groq.", 0)
    ∧ transcribeRoute none none (some "zzz") (TransOutcome.ok (some "hola"))
      = (failResp "API key no configurada.", 0) :=
  ⟨C4_missing_credential.1 none none (some "eggs") none (ChatOutcome.thrown "boom") rfl,
   C4_missing_credential.2.2.1 none (some "") (some "abc") (fun _ => ChatOutcome.httpErr 500)
     rfl (by decide),
   C4_missing_credential.2.2.2.2 none none (some "zzz") (TransOutcome.ok (some "hola"))
     rfl (by decide)⟩

/-- The premise of the empty-detection claim: the parsed object's foods
key is absent (or otherwise falsy), not an array, or an empty array. -/
def badFoods (result : JValue) : Prop :=
  truthy (jget result "foods") = false
  ∨ isJArr (jget result "foods") = false
  ∨ jget result "foods" = .jarr []

/-- On a bad foods value the single-model photo post-parse handler
returns one of its two soft failures (the empty-detection message, or
the parse-failure message when result.foods.map throws). -/
lemma handleParsedPhotoSingle_bad (result : JValue) (h : badFoods result) :
    handleParsedPhotoSingle result
      = failResp "No se detectaron alimentos claros. Intenta con texto o mejor iluminación."
    ∨ handleParsedPhotoSingle result
      = failResp "No pude analizar la imagen. Intenta con texto." := by
  unfold badFoods at h
  unfold handleParsedPhotoSingle
  cases hv : jget result "foods" with
  | jundefined => exact Or.inl (by simp [hv, truthy])
  | jnull => exact Or.inl (by simp [hv, truthy])
  | jbool b =>
    cases b with
    | false => exact Or.inl (by simp [hv, truthy])
    | true => exact Or.inr (by simp [hv, truthy, jsLengthEqZero, jsLength])
  | jnum q =>
    by_cases hq : q = 0
    · subst hq
      exact Or.inl (by simp [hv, truthy])
    · exact Or.inr (by simp [hv, truthy, hq, jsLengthEqZero, jsLength])
  | jstr s =>
    by_cases hs : s = ""
    · subst hs
      exact Or.inl (by simp [hv, truthy])
    · have hlen : s.length ≠ 0 := by
        intro h0
        apply hs
        obtain ⟨data⟩ := s
        have hd : data = [] := List.eq_nil_of_length_eq_zero h0
        subst hd
        rfl
      exact Or.inr (by simp [hv, truthy, hs, jsLengthEqZero, jsLength, hlen])
  | jarr xs =>
    rw [hv] at h
    rcases h with h | h | h
    · simp [truthy] at h
    · simp [isJArr] at h
    · have hx : xs = [] := by
        injection h
      subst hx
      exact Or.inl (by simp [hv, truthy, jsLengthEqZero, jsLength])
  | jobj fs => exact Or.inr (by simp [hv, truthy, jsLengthEqZero, jsLength])

/-- On a bad foods value the fallback post-parse handler either returns
the empty-detection soft failure immediately or continues with the
parse-failure message (the thrown .map). -/
lemma handleParsedVisionFB_bad (result : JValue) (h : badFoods result) :
    handleParsedVisionFB result
      = .inl (failResp "No detecté alimentos claros. Intenta con mejor iluminación o usa texto.")
    ∨ handleParsedVisionFB result
      = .inr "La IA respondió incorrectamente. Intenta de nuevo." := by
  unfold badFoods at h
  unfold handleParsedVisionFB
  cases hv : jget result "foods" with
  | jundefined => exact Or.inl (by simp [hv, truthy])
  | jnull => exact Or.inl (by simp [hv, truthy])
  | jbool b =>
    cases b with
    | false => exact Or.inl (by simp [hv, truthy])
    | true => exact Or.inr (by simp [hv, truthy, jsLengthEqZero, jsLength])
  | jnum q =>
    by_cases hq : q = 0
    · subst hq
      exact Or.inl (by simp [hv, truthy])
    · exact Or.inr (by simp [hv, truthy, hq, jsLengthEqZero, jsLength])
  | jstr s =>
    by_cases hs : s = ""
    · subst hs
      exact Or.inl (by simp [hv, truthy])
    · have hlen : s.length ≠ 0 := by
        intro h0
        apply hs
        obtain ⟨data⟩ := s
        have hd : data = [] := List.eq_nil_of_length_eq_zero h0
        subst hd
        rfl
      exact Or.inr (by simp [hv, truthy, hs, jsLengthEqZero, jsLength, hlen])
  | jarr xs =>
    rw [hv] at h
    rcases h with h | h | h
    · simp [truthy] at h
    · simp [isJArr] at h
    · have hx : xs = [] := by
        injection h
      subst hx
      exact Or.inl (by simp [hv, truthy, jsLengthEqZero, jsLength])
  | jobj fs => exact Or.inr (by simp [hv, truthy, jsLengthEqZero, jsLength])

/-- When every (consumed) outcome of the fallback loop parses to an
object with bad foods, the loop ends in a soft failure. -/
lemma visionTryList_allBad (outs : List ChatOutcome) (le : Option String)
    (h : ∀ o ∈ outs, ∃ r, o = ChatOutcome.ok (.ok r) ∧ badFoods r) :
    ∃ msg, (visionTryList outs le).1 = failResp msg := by
  induction outs generalizing le with
  | nil => exact ⟨le.getD "No pude analizar. Intenta con texto.", rfl⟩
  | cons o rest ih =>
    obtain ⟨r, ho, hbad⟩ := h o (List.mem_cons_self o rest)
    subst ho
    rcases handleParsedVisionFB_bad r hbad with hb | hb
    · refine ⟨"No detecté alimentos claros. Intenta con mejor iluminación o usa texto.", ?_⟩
      rw [visionTryList_cons_inl (ChatOutcome.ok (.ok r)) rest le _ hb]
    · obtain ⟨msg, hm⟩ :=
        ih (some "La IA respondió incorrectamente. Intenta de nuevo.")
          (fun z hz => h z (List.mem_cons_of_mem _ hz))
      refine ⟨msg, ?_⟩
      rw [visionTryList_cons_inr (ChatOutcome.ok (.ok r)) rest le _ hb]
      exact hm

/-- Bad foods in the plain analyze-text handler hit the triple check. -/
lemma analyzeTextPlain_bad (env hdr description text : Option String) (result : JValue)
    (hkey : keyMissing env hdr = false)
    (hdesc : jsTrim (jsOrS description (jsOrS text "")) ≠ "")
    (h : badFoods result) :
    analyzeTextPlain env hdr description text (.ok (.ok result))
      = (failResp "No identifiqué alimentos. Intenta: \"2 huevos fritos\"", 1) := by
  have h1 : jsOrS description (jsOrS text "") ≠ "" := by
    intro hh
    exact hdesc (by rw [hh]; rfl)
  unfold badFoods at h
  unfold analyzeTextPlain
  rcases h with h | h | h
  · simp [hkey, h1, hdesc, h]
  · simp [hkey, h1, hdesc, h]
  · simp [hkey, h1, hdesc, h, truthy, isJArr, jsLengthEqZero, jsLength]

/-- Bad foods in the part_002 analyze-text handler hit the triple check. -/
lemma analyzeTextV2_bad (env hdr description text : Option String) (result : JValue)
    (hkey : keyMissing env hdr = false)
    (hdesc : jsTrim (jsOrS description (jsOrS text "")) ≠ "")
    (h : badFoods result) :
    analyzeTextV2 env hdr description text (.ok (.ok result))
      = (failResp "No identifiqué alimentos. Ejemplo: \"2 huevos fritos\"", 1) := by
  have h1 : jsOrS description (jsOrS text "") ≠ "" := by
    intro hh
    exact hdesc (by rw [hh]; rfl)
  unfold badFoods at h
  unfold analyzeTextV2
  rcases h with h | h | h
  · simp [hkey, h1, hdesc, h]
  · simp [hkey, h1, hdesc, h]
  · simp [hkey, h1, hdesc, h, truthy, isJArr, jsLengthEqZero, jsLength]

/-- Claim C5: when the model response parses to an object whose foods
key is absent (falsy), not an array, or an empty array, every analysis
handler produces a soft failure response (success false, an error
message, no foods) and never a success with zero items; the embedding is
total, so no case crashes.  For the fallback loop this holds for any run
whose consumed outcomes all parse to such objects. -/
theorem C5_empty_foods_soft_failure :
    (∀ msg, (failResp msg).success = false ∧ (failResp msg).error = some msg
      ∧ (failResp msg).foods = [])
    ∧ (∀ (env hdr description text : Option String) (result : JValue),
        keyMissing env hdr = false →
        jsTrim (jsOrS description (jsOrS text "")) ≠ "" → badFoods result →
        analyzeTextPlain env hdr description text (.ok (.ok result))
          = (failResp "No identifiqué alimentos. Intenta: \"2 huevos fritos\"", 1))
    ∧ (∀ (env hdr description text : Option String) (result : JValue),
        keyMissing env hdr = false →
        jsTrim (jsOrS description (jsOrS text "")) ≠ "" → badFoods result →
        analyzeTextV2 env hdr description text (.ok (.ok result))
          = (failResp "No identifiqué alimentos. Ejemplo: \"2 huevos fritos\"", 1))
    ∧ (∀ result : JValue, badFoods result →
        handleParsedPhotoSingle result
          = failResp "No se detectaron alimentos claros. Intenta con texto o mejor iluminación."
        ∨ handleParsedPhotoSingle result
          = failResp "No pude analizar la imagen. Intenta con texto.")
    ∧ (∀ (outs : List ChatOutcome) (le : Option String),
        (∀ o ∈ outs, ∃ r, o = ChatOutcome.ok (.ok r) ∧ badFoods r) →
        ∃ msg, (visionTryList outs le).1 = failResp msg) :=
  ⟨fun _ => ⟨rfl, rfl, rfl⟩, analyzeTextPlain_bad, analyzeTextV2_bad,
    handleParsedPhotoSingle_bad, visionTryList_allBad⟩

/-- Witness for C5_empty_foods_soft_failure: the empty foods list at
concrete requests. -/
theorem C5_witness :
    analyzeTextV2 (some "k") none (some "eggs") none
      (.ok (.ok (JValue.jobj [("foods", JValue.jarr [])])))
      = (failResp "No identifiqué alimentos. Ejemplo: \"2 huevos fritos\"", 1)
    ∧ (∃ msg, (visionTryList [ChatOutcome.ok (.ok (JValue.jobj []))] none).1 = failResp msg) := by
  constructor
  · exact C5_empty_foods_soft_failure.2.2.1 (some "k") none (some "eggs") none
      (JValue.jobj [("foods", JValue.jarr [])]) (by decide) (by decide) (Or.inr (Or.inr rfl))
  · exact C5_empty_foods_soft_failure.2.2.2.2 [ChatOutcome.ok (.ok (JValue.jobj []))] none
      (by
        intro o ho
        rw [List.mem_singleton] at ho
        subst ho
        exact ⟨JValue.jobj [], rfl, Or.inl rfl⟩)

/-- The scale never exceeds the width constraint 800 / w. -/
lemma processScale_le_w (w h : ℕ) : processScale w h ≤ 800 / (w : ℚ) := by
  unfold processScale
  split_ifs
  · exact le_trans (min_le_left _ _) (le_trans (min_le_left _ _) (min_le_left _ _))
  · exact le_trans (min_le_left _ _) (min_le_left _ _)

/-- The scale never exceeds the height constraint 800 / h. -/
lemma processScale_le_h (w h : ℕ) : processScale w h ≤ 800 / (h : ℚ) := by
  unfold processScale
  split_ifs
  · exact le_trans (min_le_left _ _) (le_trans (min_le_left _ _) (min_le_right _ _))
  · exact le_trans (min_le_left _ _) (min_le_right _ _)

/-- The scale factor is at most 1 (no upscaling). -/
lemma processScale_le_one (w h : ℕ) : processScale w h ≤ 1 := by
  unfold processScale
  split_ifs
  · exact le_trans (min_le_left _ _) (min_le_right _ _)
  · exact min_le_right _ _

/-- Above five megapixels the scale is capped at 0.4. -/
lemma processScale_cap (w h : ℕ) (hpx : 5000000 < w * h) :
    processScale w h ≤ 2 / 5 := by
  unfold processScale
  split_ifs with hc
  · exact min_le_right _ _
  · exact absurd hpx hc

/-- Math.round of a quantity at most 800 is at most 800. -/
lemma jsRound_le_800 (x : ℚ) (hx : x ≤ 800) : jsRound x ≤ 800 := by
  unfold jsRound
  have h1 : x + 1 / 2 < ((801 : ℤ) : ℚ) := by
    push_cast
    linarith
  have h2 := Int.floor_lt.mpr h1
  omega

/-- Full behavior of the quality loop with sufficient fuel: the result
quality is the start minus k decrements of 0.1, each earlier quality
both exceeded the byte budget and sat above the floor guard, and the
loop guard is false at the returned state. -/
lemma qualityLoop_spec (enc : ℚ → ℕ) :
    ∀ (fuel : ℕ) (q : ℚ), q ≤ (fuel : ℚ) / 10 + 3 / 20 →
    ∃ k : ℕ, k ≤ fuel
      ∧ qualityLoop enc fuel q = (q - k / 10, dataUrlSizeKB (enc (q - k / 10)))
      ∧ (∀ j : ℕ, j < k → dataUrlSizeKB (enc (q - j / 10)) > 180 ∧ q - j / 10 > 3 / 20)
      ∧ ¬(dataUrlSizeKB (enc (q - k / 10)) > 180 ∧ q - k / 10 > 3 / 20) := by
  intro fuel
  induction fuel with
  | zero =>
    intro q hq
    refine ⟨0, le_refl 0, ?_, ?_, ?_⟩
    · simp [qualityLoop]
    · intro j hj
      omega
    · intro hg
      have := hg.2
      simp only [Nat.cast_zero] at this
      norm_num at hq this
      linarith
  | succ fuel ih =>
    intro q hq
    by_cases hg : dataUrlSizeKB (enc q) > 180 ∧ q > 3 / 20
    · have hq' : q - 1 / 10 ≤ (fuel : ℚ) / 10 + 3 / 20 := by
        push_cast at hq ⊢
        linarith
      obtain ⟨k, hk, heq, hall, hstop⟩ := ih (q - 1 / 10) hq'
      have harith : ∀ j : ℕ, q - ((j : ℚ) + 1) / 10 = (q - 1 / 10) - (j : ℚ) / 10 := by
        intro j
        ring
      refine ⟨k + 1, by omega, ?_, ?_, ?_⟩
      · have hloop : qualityLoop enc (fuel + 1) q = qualityLoop enc fuel (q - 1 / 10) := by
          simp only [qualityLoop]
          rw [if_pos hg]
        rw [hloop, heq]
        have : q - ((k : ℚ) + 1) / 10 = (q - 1 / 10) - (k : ℚ) / 10 := harith k
        push_cast
        rw [this]
      · intro j hj
        cases j with
        | zero =>
          simpa using hg
        | succ j =>
          have hj' : j < k := by omega
          have := hall j hj'
          push_cast
          rw [harith j]
          exact this
      · push_cast
        rw [harith k]
        exact hstop
    · refine ⟨0, by omega, ?_, ?_, ?_⟩
      · simp only [qualityLoop]
        rw [if_neg hg]
        simp
      · intro j hj
        omega
      · simpa using hg

/-- Claim C6: for every decodable image (positive dimensions) processBlob
succeeds with both edges at most 800, a scale factor at most 1, the
extra 0.4 cap above five megapixels, and a JPEG quality that started at
0.6 and dropped by 0.1 per step while the encoded size exceeded the
180 KB budget and the quality sat above the 0.15 floor; at the returned
state the loop guard is false (budget met or floor crossed), and the
run never fails merely because the budget is still exceeded there. -/
theorem C6_image_normalizer (w h : ℕ) (enc : ℚ → ℕ) (hw : 0 < w) (hh : 0 < h) :
    ∃ r : ProcessedImage,
      processBlobRun (some (w, h)) true enc = .ok r
      ∧ r.width ≤ 800 ∧ r.height ≤ 800
      ∧ processScale w h ≤ 1
      ∧ (5000000 < w * h → processScale w h ≤ 2 / 5)
      ∧ (∃ k : ℕ, k ≤ 5 ∧ r.quality = 3 / 5 - (k : ℚ) / 10
          ∧ (∀ j : ℕ, j < k →
              dataUrlSizeKB (enc (3 / 5 - (j : ℚ) / 10)) > 180
                ∧ 3 / 5 - (j : ℚ) / 10 > 3 / 20)
          ∧ (r.sizeKB ≤ 180 ∨ r.quality ≤ 3 / 20)) := by
  have hloop := qualityLoop_spec enc 6 (6 / 10) (by norm_num)
  obtain ⟨k, hk6, heq, hall, hstop⟩ := hloop
  have hk5 : k ≤ 5 := by
    rcases Nat.lt_or_ge k 6 with hlt | hge
    · omega
    · exfalso
      have hk6' : k = 6 := by omega
      subst hk6'
      have := (hall 5 (by omega)).2
      norm_num at this
  have hwQ : (0 : ℚ) < (w : ℚ) := by
    exact_mod_cast hw
  have hhQ : (0 : ℚ) < (h : ℚ) := by
    exact_mod_cast hh
  have hwb : (w : ℚ) * processScale w h ≤ 800 := by
    have h1 := processScale_le_w w h
    have h2 : (w : ℚ) * processScale w h ≤ (w : ℚ) * (800 / (w : ℚ)) :=
      mul_le_mul_of_nonneg_left h1 (le_of_lt hwQ)
    have h3 : (w : ℚ) * (800 / (w : ℚ)) = 800 := by
      field_simp
    linarith
  have hhb : (h : ℚ) * processScale w h ≤ 800 := by
    have h1 := processScale_le_h w h
    have h2 : (h : ℚ) * processScale w h ≤ (h : ℚ) * (800 / (h : ℚ)) :=
      mul_le_mul_of_nonneg_left h1 (le_of_lt hhQ)
    have h3 : (h : ℚ) * (800 / (h : ℚ)) = 800 := by
      field_simp
    linarith
  have hrun : processBlobRun (some (w, h)) true enc
      = .ok ⟨jsRound ((w : ℚ) * processScale w h), jsRound ((h : ℚ) * processScale w h),
          (qualityLoop enc 6 (6 / 10)).1, (qualityLoop enc 6 (6 / 10)).2⟩ := by
    unfold processBlobRun
    have hw0 : ¬(w = 0 ∨ h = 0) := by omega
    simp [hw0]
  refine ⟨_, hrun, ?_, ?_, processScale_le_one w h, processScale_cap w h, ⟨k, hk5, ?_, ?_, ?_⟩⟩
  · exact jsRound_le_800 _ hwb
  · exact jsRound_le_800 _ hhb
  · show (qualityLoop enc 6 (6 / 10)).1 = 3 / 5 - (k : ℚ) / 10
    rw [heq]
    norm_num
  · intro j hj
    have := hall j (by omega)
    have he : (6 : ℚ) / 10 - (j : ℚ) / 10 = 3 / 5 - (j : ℚ) / 10 := by
      norm_num
    rw [he] at this
    exact this
  · show (qualityLoop enc 6 (6 / 10)).2 ≤ 180 ∨ (qualityLoop enc 6 (6 / 10)).1 ≤ 3 / 20
    rw [heq]
    rcases not_and_or.mp hstop with hs | hs
    · exact Or.inl (by simpa using not_lt.mp hs)
    · exact Or.inr (by simpa using not_lt.mp hs)

/-- Witness for C6_image_normalizer at an 8000 x 6000 input with a small
encoder. -/
theorem C6_witness :
    ∃ r : ProcessedImage,
      processBlobRun (some (8000, 6000)) true (fun _ => 0) = .ok r
      ∧ r.width ≤ 800 ∧ r.height ≤ 800
      ∧ processScale 8000 6000 ≤ 1
      ∧ (5000000 < 8000 * 6000 → processScale 8000 6000 ≤ 2 / 5)
      ∧ (∃ k : ℕ, k ≤ 5 ∧ r.quality = 3 / 5 - (k : ℚ) / 10
          ∧ (∀ j : ℕ, j < k →
              dataUrlSizeKB ((fun _ => 0) (3 / 5 - (j : ℚ) / 10)) > 180
                ∧ 3 / 5 - (j : ℚ) / 10 > 3 / 20)
          ∧ (r.sizeKB ≤ 180 ∨ r.quality ≤ 3 / 20)) :=
  C6_image_normalizer 8000 6000 (fun _ => 0) (by norm_num) (by norm_num)

/-- Claim C7: transcription failure is terminal for the voice pipeline.
The transcription route maps a 2xx response whose text is absent or
whitespace-only to a dedicated blank-transcription soft failure, distinct
from the transport-error message; and the client voice handler never
calls analyze-text when the transcription result is not a success,
surfacing the error instead. -/
theorem C7_voice_terminal :
    (∀ (env hdr audio : Option String) (s : String),
      keyMissing env hdr = false → audio.getD "" ≠ "" → jsTrim s = "" →
      transcribeRoute env hdr audio (TransOutcome.ok (some s))
        = (failResp "No pude entender el audio. Habla más claro o usa la opción de escribir.", 1))
    ∧ (∀ (env hdr audio : Option String),
      keyMissing env hdr = false → audio.getD "" ≠ "" →
      transcribeRoute env hdr audio (TransOutcome.ok none)
        = (failResp "No pude entender el audio. Habla más claro o usa la opción de escribir.", 1))
    ∧ "No pude entender el audio. Habla más claro o usa la opción de escribir."
        ≠ "Error al transcribir audio."
    ∧ (∀ (apiKey : Option String) (tr : ApiResp) (analyze : String → ApiResp),
      tr.success = false →
      (handleVoiceTranscript apiKey tr analyze).2 = 0)
    ∧ (∀ (apiKey : Option String) (tr : ApiResp) (analyze : String → ApiResp),
      apiKey.getD "" ≠ "" → tr.success = false →
      handleVoiceTranscript apiKey tr analyze
        = (ClientOutcome.alertShown (jsOrS tr.error "No se pudo transcribir."), 0)) := by
  refine ⟨?_, ?_, ?_, ?_, ?_⟩
  · intro env hdr audio s hkey haudio hblank
    unfold transcribeRoute
    simp [hkey, haudio, hblank]
  · intro env hdr audio hkey haudio
    unfold transcribeRoute
    simp [hkey, haudio]
  · decide
  · intro apiKey tr analyze hfail
    unfold handleVoiceTranscript
    by_cases hk : apiKey.getD "" = ""
    · simp [hk]
    · simp [hk, hfail]
  · intro apiKey tr analyze hk hfail
    unfold handleVoiceTranscript
    simp [hk, hfail]

/-- Witness for C7_voice_terminal: a whitespace-only transcription at a
concrete request, and the client handler on that failed result. -/
theorem C7_witness :
    transcribeRoute (some "k") none (some "zzz") (TransOutcome.ok (some "   "))
      = (failResp "No pude entender el audio. Habla más claro o usa la opción de escribir.", 1)
    ∧ (handleVoiceTranscript (some "k")
        (failResp "No pude entender el audio. Habla más claro o usa la opción de escribir.")
        (fun _ => okFoods [] JValue.jundefined)).2 = 0 :=
  ⟨C7_voice_terminal.1 (some "k") none (some "zzz") "   " (by decide) (by decide) (by decide),
   C7_voice_terminal.2.2.2.1 (some "k")
     (failResp "No pude entender el audio. Habla más claro o usa la opción de escribir.")
     (fun _ => okFoods [] JValue.jundefined) rfl⟩

/-- Claim C8 counterexample: a HEIC file whose conversion step succeeds
but yields a blob that fails to decode is reported as LOAD_FAILED, not
as the unsupported-format error, although the conversion step failed to
produce a decodable image.  (The original bytes are still not
processed.) -/
theorem C8_counterexample :
    isHeicFile ⟨"photo.heic", "", 0⟩ = true
    ∧ processImage ⟨"photo.heic", "", 0⟩ (.ok 1) (fun _ => none) true (fun _ => 0)
      = .error "LOAD_FAILED"
    ∧ "LOAD_FAILED" ≠ "HEIC_NOT_SUPPORTED" := by
  refine ⟨by decide, ?_, by decide⟩
  unfold processImage
  rw [if_pos (by decide : isHeicFile ⟨"photo.heic", "", 0⟩ = true)]
  rfl

/-- Claim C8 (amended): HEIC detection reads only the file name and the
declared media type, never the content; a thrown HEIC conversion is
reported as the unsupported-format error HEIC_NOT_SUPPORTED; and a
successful conversion hands exactly the converted blob to the generic
pipeline, never falling back to the original file's blob (a conversion
output that fails to decode surfaces as LOAD_FAILED). -/
theorem C8_heic_handling :
    (∀ f g : FileMeta, f.name = g.name → f.type = g.type →
      isHeicFile f = isHeicFile g)
    ∧ (∀ (f : FileMeta) (decode : Blob → Option (ℕ × ℕ)) (ctxOk : Bool) (enc : ℚ → ℕ),
      isHeicFile f = true →
      processImage f (.error ()) decode ctxOk enc = .error "HEIC_NOT_SUPPORTED")
    ∧ (∀ (f : FileMeta) (b : Blob) (decode : Blob → Option (ℕ × ℕ)) (ctxOk : Bool)
        (enc : ℚ → ℕ),
      isHeicFile f = true →
      processImage f (.ok b) decode ctxOk enc = processBlobRun (decode b) ctxOk enc)
    ∧ (∀ (f : FileMeta) (b : Blob) (decode : Blob → Option (ℕ × ℕ)) (ctxOk : Bool)
        (enc : ℚ → ℕ),
      isHeicFile f = true → decode b = none →
      processImage f (.ok b) decode ctxOk enc = .error "LOAD_FAILED") := by
  refine ⟨?_, ?_, ?_, ?_⟩
  · intro f g hn ht
    unfold isHeicFile
    rw [hn, ht]
  · intro f decode ctxOk enc hf
    unfold processImage
    rw [if_pos hf]
  · intro f b decode ctxOk enc hf
    unfold processImage
    rw [if_pos hf]
  · intro f b decode ctxOk enc hf hdec
    unfold processImage
    rw [if_pos hf]
    show processBlobRun (decode b) ctxOk enc = _
    rw [hdec]
    rfl

/-- Witness for C8_heic_handling: a failing conversion on a concrete
HEIC file is the unsupported-format error. -/
theorem C8_witness :
    processImage ⟨"img.HEIC", "image/heic", 7⟩ (.error ()) (fun _ => some (10, 10)) true
      (fun _ => 0) = .error "HEIC_NOT_SUPPORTED"
    ∧ isHeicFile ⟨"a.jpg", "image/jpeg", 1⟩ = isHeicFile ⟨"a.jpg", "image/jpeg", 2⟩ :=
  ⟨C8_heic_handling.2.1 ⟨"img.HEIC", "image/heic", 7⟩ (fun _ => some (10, 10)) true
    (fun _ => 0) (by decide),
   C8_heic_handling.1 ⟨"a.jpg", "image/jpeg", 1⟩ ⟨"a.jpg", "image/jpeg", 2⟩ rfl rfl⟩

/-- Claim C10: the photo endpoints gate the payload before any provider
call: a missing (falsy) image is rejected with HTTP 400 and zero calls;
with a credential present, a payload over the kilobyte ceiling (3000 KB
single-model, 4000 KB fallback) or under the fallback's 5 KB minimum is
rejected with HTTP 400 and zero calls; the transmitted image URL is the
payload itself when it starts with data:, otherwise the payload wrapped
as a JPEG base64 data URI, and the handler depends on the network only
through that URL. -/
theorem C10_photo_payload_gate :
    (∀ (env hdr img : Option String) (net : String → ChatOutcome),
      img.getD "" = "" →
      analyzePhotoSingle env hdr img net = (failRespStatus "Se requiere una imagen" 400, 0))
    ∧ (∀ (env hdr img : Option String) (net : String → String × ℕ → ChatOutcome),
      img.getD "" = "" →
      analyzePhotoFallback env hdr img net = (failRespStatus "Se requiere una imagen" 400, 0))
    ∧ (∀ (env hdr img : Option String) (net : String → ChatOutcome),
      img.getD "" ≠ "" → keyMissing env hdr = false →
      imageSizeKB (img.getD "") > 3000 →
      analyzePhotoSingle env hdr img net
        = (failRespStatus "Imagen muy grande. La app ya la comprime automáticamente." 400, 0))
    ∧ (∀ (env hdr img : Option String) (net : String → String × ℕ → ChatOutcome),
      img.getD "" ≠ "" → keyMissing env hdr = false →
      imageSizeKB (img.getD "") < 5 →
      analyzePhotoFallback env hdr img net
        = (failRespStatus "Imagen muy pequeña o corrupta." 400, 0))
    ∧ (∀ (env hdr img : Option String) (net : String → String × ℕ → ChatOutcome),
      img.getD "" ≠ "" → keyMissing env hdr = false →
      ¬(imageSizeKB (img.getD "") < 5) → imageSizeKB (img.getD "") > 4000 →
      analyzePhotoFallback env hdr img net
        = (failRespStatus "Imagen muy grande." 400, 0))
    ∧ (∀ img : String, strStartsWith img "data:" = false →
      visionRequestUrl img = "data:image/jpeg;base64," ++ img)
    ∧ (∀ img : String, strStartsWith img "data:" = true → visionRequestUrl img = img)
    ∧ (∀ (env hdr img : Option String) (net net' : String → ChatOutcome),
      net (visionRequestUrl (img.getD "")) = net' (visionRequestUrl (img.getD "")) →
      analyzePhotoSingle env hdr img net = analyzePhotoSingle env hdr img net') := by
  refine ⟨?_, ?_, ?_, ?_, ?_, ?_, ?_, ?_⟩
  · intro env hdr img net himg
    unfold analyzePhotoSingle
    simp [himg]
  · intro env hdr img net himg
    unfold analyzePhotoFallback
    simp [himg]
  · intro env hdr img net himg hkey hsize
    unfold analyzePhotoSingle
    simp [himg, hkey, hsize]
  · intro env hdr img net himg hkey hsize
    unfold analyzePhotoFallback
    simp [himg, hkey, hsize]
  · intro env hdr img net himg hkey hsmall hsize
    unfold analyzePhotoFallback
    simp [himg, hkey, hsmall, hsize]
  · intro img h
    unfold visionRequestUrl
    simp [h]
  · intro img h
    unfold visionRequestUrl
    simp [h]
  · intro env hdr img net net' h
    unfold analyzePhotoSingle
    simp only [h]

/-- Witness for C10_photo_payload_gate: a 4000000-character payload trips
the 3000 KB ceiling, a 3-character payload trips the fallback 5 KB
minimum, and a bare payload is wrapped as a JPEG data URI. -/
theorem C10_witness :
    analyzePhotoSingle (some "k") none (some (String.mk (List.replicate 4000000 'a')))
      (fun _ => ChatOutcome.httpErr 500)
      = (failRespStatus "Imagen muy grande. La app ya la comprime automáticamente." 400, 0)
    ∧ analyzePhotoFallback (some "k") none (some "abc") (fun _ _ => ChatOutcome.httpErr 500)
      = (failRespStatus "Imagen muy pequeña o corrupta." 400, 0)
    ∧ visionRequestUrl "abc" = "data:image/jpeg;base64," ++ "abc" := by
  have hlen : (String.mk (List.replicate 4000000 'a')).length = 4000000 := by
    show (List.replicate 4000000 'a').length = 4000000
    exact List.length_replicate 4000000 'a'
  have hne : (String.mk (List.replicate 4000000 'a')) ≠ "" := by
    intro h
    have h2 := congrArg String.length h
    rw [hlen] at h2
    simp at h2
  have hbig : imageSizeKB (String.mk (List.replicate 4000000 'a')) > 3000 := by
    unfold imageSizeKB jsRound
    rw [hlen]
    have h1 : (3001 : ℤ) ≤ ⌊((4000000 : ℕ) : ℚ) / 1024 + 1 / 2⌋ := by
      apply Int.le_floor.mpr
      push_cast
      norm_num
    omega
  have hsmall : imageSizeKB "abc" < 5 := by
    unfold imageSizeKB jsRound
    have h1 : ⌊((("abc" : String).length : ℚ)) / 1024 + 1 / 2⌋ < (5 : ℤ) := by
      apply Int.floor_lt.mpr
      rw [show ("abc" : String).length = 3 from rfl]
      push_cast
      norm_num
    omega
  refine ⟨?_, ?_, ?_⟩
  · exact C10_photo_payload_gate.2.2.1 (some "k") none
      (some (String.mk (List.replicate 4000000 'a'))) (fun _ => ChatOutcome.httpErr 500)
      hne (by decide) hbig
  · exact C10_photo_payload_gate.2.2.2.1 (some "k") none (some "abc")
      (fun _ _ => ChatOutcome.httpErr 500) (by decide) (by decide) hsmall
  · exact C10_photo_payload_gate.2.2.2.2.2.1 "abc" (by decide)
